import Mathlib

/-!
Shallow embedding of the github-mcp-server batch-operation subsystem:
the data model (`BatchOperationResult`, `BatchResponse`, `GitHubAPIError`),
the error normalizer (`handle_github_error`), the per-item operation
functions and the four batch tools (`batch_update_issues`,
`batch_add_labels`, `batch_link_to_project`, `create_issues`), and the CI
conclusion aggregation of `check_ci_status`.

The GitHub client library is an external collaborator (spec section 1), so
each per-item function's remote work is modelled by an oracle parameter
returning either the data the code reads from the remote objects or the
first exception raised by a remote call.  Non-deterministic completion
order of the worker pool is modelled by an explicit `order` parameter, a
permutation of `0..N-1` giving the order in which futures complete.
Wall-clock timing (`execution_time_seconds`) is real time and is carried
as an opaque `PyVal.none`.
-/

namespace GithubMcp

/-- Python values as they flow through the tools: the subset of Python's
data model the code manipulates (None, bool, int, str, list, dict).
Dicts are association lists in insertion order, as Python dicts are. -/
inductive PyVal where
  | none
  | bool (b : Bool)
  | int (n : Int)
  | str (s : String)
  | list (xs : List PyVal)
  | dict (fields : List (String × PyVal))

/-- Python truthiness (`if not x`): None, False, 0, empty str/list/dict are falsy. -/
def pyTruthy : PyVal → Bool
  | .none => false
  | .bool b => b
  | .int n => n != 0
  | .str s => !s.isEmpty
  | .list xs => !xs.isEmpty
  | .dict fs => !fs.isEmpty

/-- `k in d` / `d[k]` support: first binding of key `k` in the dict. -/
def dictGet? (d : List (String × PyVal)) (k : String) : Option PyVal :=
  (d.find? (fun kv => kv.1 == k)).map (fun kv => kv.2)

/-- Python `d.get(k, default)` (default defaults to None, as for `dict.get`). -/
def dictGet (d : List (String × PyVal)) (k : String) (default : PyVal := .none) : PyVal :=
  (dictGet? d k).getD default

/-- Python `str()` of a value as used in f-strings.  Containers are
abbreviated: no code path under verification formats a container. -/
def pyStr : PyVal → String
  | .str s => s
  | .int n => toString n
  | .bool true => "True"
  | .bool false => "False"
  | .none => "None"
  | .list _ => "[...]"
  | .dict _ => "\x7b...\x7d"

/-- Whether `needle` is an initial segment of `hay` (on character lists). -/
def charsStartWith : List Char → List Char → Bool
  | [], _ => true
  | _ :: _, [] => false
  | c :: cs, d :: ds => c == d && charsStartWith cs ds

/-- Whether `needle` occurs contiguously in `hay` (on character lists). -/
def charsContain : List Char → List Char → Bool
  | [], needle => needle.isEmpty
  | h :: tl, needle => charsStartWith needle (h :: tl) || charsContain tl needle

/-- Python `needle in hay` substring test (the needles under verification
are the non-empty status-code strings "404", "403", "401", "422" and
field-name fragments). -/
def strContains (hay needle : String) : Bool :=
  charsContain hay.data needle.data

/-- Python `s.startswith(pre)`. -/
def strStartsWith (s pre : String) : Bool :=
  charsStartWith pre.data s.data

/-- Model of a Python exception as inspected by `handle_github_error`
(utils/errors.py): `status` is `error.status` when the attribute exists
(PyGithub's GithubException), `data` is `error.data` when it exists,
`msg` is `str(error)`, `tyName` is `type(error).__name__`. -/
structure GhException where
  status : Option Int
  data : Option PyVal
  msg : String
  tyName : String

/-- utils/errors.py GitHubAPIError: structured error with code, message,
optional details and troubleshooting suggestions. -/
structure GitHubAPIError where
  code : String
  message : String
  details : Option PyVal := Option.none
  suggestions : List String := []

/-- GitHubAPIError.to_dict (utils/errors.py lines 45-58). -/
def GitHubAPIError.to_dict (e : GitHubAPIError) : List (String × PyVal) :=
  [("error", .bool true),
   ("code", .str e.code),
   ("message", .str e.message),
   ("details", e.details.getD .none),
   ("suggestions", .list (e.suggestions.map .str))]

/-- Body of the `for error in errors` loop of `_extract_validation_errors`
(utils/errors.py lines 79-98): a dict entry yields a field-error line, a
string entry is taken verbatim, anything else is skipped. -/
def fieldErrorLine (error : PyVal) : Option String :=
  match error with
  | .dict e =>
    let field := pyStr (dictGet e "field" (.str "unknown"))
    let code := pyStr (dictGet e "code" (.str "invalid"))
    let error_message := dictGet e "message" (.str "")
    if pyTruthy error_message then
      some s!"Field \x27{field}\x27: {pyStr error_message}"
    else if code == "missing_field" then
      some s!"Field \x27{field}\x27 is required but missing"
    else if code == "invalid" then
      some s!"Field \x27{field}\x27 has an invalid value"
    else if code == "already_exists" then
      some s!"Field \x27{field}\x27 already exists (duplicate)"
    else if code == "custom" then
      some s!"Field \x27{field}\x27: custom validation error"
    else
      some s!"Field \x27{field}\x27: {code}"
  | .str s => some s
  | _ => Option.none

/-- _extract_validation_errors (utils/errors.py lines 61-100): pulls the
main message and the field-level error lines out of a 422 response body.
A non-dict body yields ("Validation failed", []); a non-list "errors"
value is treated as empty. -/
def _extract_validation_errors (data : Option PyVal) : String × List String :=
  match data with
  | some (.dict d) =>
    let message := pyStr (dictGet d "message" (.str "Validation failed"))
    let errors := match dictGet d "errors" (.list []) with
      | .list xs => xs
      | _ => []
    (message, errors.filterMap fieldErrorLine)
  | _ => ("Validation failed", [])

/-- handle_github_error (utils/errors.py lines 103-202): maps an arbitrary
exception onto the closed error taxonomy, checking 404, 403, 401, 422 in
that order (status attribute or substring of `str(error)`), falling back
to GITHUB_API_ERROR. -/
def handle_github_error (error : GhException) : GitHubAPIError :=
  let status := error.status
  let data := error.data
  let error_str := error.msg
  if status == some 404 || strContains error_str "404" then
    { code := "RESOURCE_NOT_FOUND",
      message := error_str,
      details := some (.dict [("status", .int 404)]),
      suggestions := ["Verify the resource exists",
        "Check you have access to this repository"] }
  else if status == some 403 || strContains error_str "403" then
    { code := "FORBIDDEN",
      message := "Access denied. Check token permissions.",
      details := some (.dict [("status", .int 403)]),
      suggestions := ["Verify GITHUB_TOKEN has required scopes",
        "Check repository access permissions"] }
  else if status == some 401 || strContains error_str "401" then
    { code := "UNAUTHORIZED",
      message := "Authentication failed.",
      details := some (.dict [("status", .int 401)]),
      suggestions := ["Verify GITHUB_TOKEN is valid", "Token may have expired"] }
  else if status == some 422 || strContains error_str "422" then
    let p := _extract_validation_errors data
    let main_message := p.1
    let field_errors := p.2
    let detailed_message :=
      if !field_errors.isEmpty then
        main_message ++ ":\n" ++
          String.intercalate "\n" (field_errors.map (fun e => "  - " ++ e))
      else main_message
    let suggestions := ["Review the parameter values in your request",
      "Check GitHub API documentation for required fields and formats"]
    let suggestions := suggestions ++
      (if field_errors.any (fun e => strContains e.toLower "title") then
        ["PR title must be non-empty and not exceed 256 characters"] else [])
    let suggestions := suggestions ++
      (if field_errors.any (fun e => strContains e.toLower "body") then
        ["PR body must not exceed 65536 characters"] else [])
    let suggestions := suggestions ++
      (if field_errors.any (fun e => strContains e.toLower "head") then
        ["Ensure the head branch exists and has been pushed to remote"] else [])
    let suggestions := suggestions ++
      (if field_errors.any (fun e => strContains e.toLower "base") then
        ["Ensure the base branch exists in the repository"] else [])
    { code := "VALIDATION_FAILED",
      message := detailed_message,
      details := some (.dict [("status", .int 422),
        ("field_errors", .list (field_errors.map .str)),
        ("raw_data", data.getD .none)]),
      suggestions := suggestions }
  else
    { code := "GITHUB_API_ERROR",
      message := error_str,
      details := some (.dict [("original_error", .str error.tyName)]),
      suggestions := [] }

/-- BatchOperationResult (tools/batch_operations.py lines 20-34): result of
a single operation within a batch.  `data`/`error` hold the dict the code
stores there (or None). -/
structure BatchOperationResult where
  index : Nat
  success : Bool
  data : Option PyVal := Option.none
  error : Option PyVal := Option.none

/-- BatchOperationResult.to_dict (tools/batch_operations.py lines 36-46):
index and success always; the "data" key on success, the "error" key on
failure. -/
def BatchOperationResult.to_dict (r : BatchOperationResult) : List (String × PyVal) :=
  [("index", .int r.index), ("success", .bool r.success)] ++
    (if r.success then [("data", r.data.getD .none)] else [("error", r.error.getD .none)])

/-- The f-string `f"{(successful / total * 100):.1f}"` of
BatchResponse.to_dict (and create_issues): one-decimal fixed-point
formatting of `successful/total*100`.  Computed on the exact rational with
ties rounded to even; for `successful ≤ total ≤ 50` this agrees with
CPython's float formatting (the only tie cases have reduced denominator
16, where the double is exact). -/
def formatPercent1 (successful total : Nat) : String :=
  let scaled := successful * 1000
  let q := scaled / total
  let r := scaled % total
  let rounded :=
    if total < 2 * r then q + 1
    else if 2 * r < total then q
    else if q % 2 == 0 then q else q + 1
  s!"{rounded / 10}.{rounded % 10}"

/-- BatchResponse (tools/batch_operations.py lines 49-65).  Wall-clock
timing is not modelled: `execution_time_seconds` carries an opaque value. -/
structure BatchResponse where
  total : Nat
  successful : Nat
  failed : Nat
  results : List BatchOperationResult := []
  execution_time_seconds : PyVal := .none

/-- BatchResponse.to_dict (tools/batch_operations.py lines 67-78). -/
def BatchResponse.to_dict (r : BatchResponse) : List (String × PyVal) :=
  [("total", .int r.total),
   ("successful", .int r.successful),
   ("failed", .int r.failed),
   ("success_rate",
     .str (if 0 < r.total then formatPercent1 r.successful r.total ++ "%" else "0%")),
   ("execution_time_seconds", r.execution_time_seconds),
   ("results", .list (r.results.map (fun x => .dict x.to_dict)))]

/-- Data the code reads from a PyGithub issue object after a successful
update (`issue.number`, `issue.html_url`). -/
structure IssueRef where
  number : Int
  html_url : String

/-- Oracle for the remote work in the try-block of `_update_single_issue`
(tools/batch_operations.py lines 101-127: get_repo, get_issue and the
conditional edit calls), applied to owner, repo, the issue number value
and the filtered update mapping: returns the issue object data on success
or the first exception a remote call raised.  The GitHub client is an
external collaborator, so its behaviour is a parameter of the embedding. -/
def UpdateOracle : Type :=
  String → String → PyVal → List (String × PyVal) → Except GhException IssueRef

/-- _update_single_issue (tools/batch_operations.py lines 81-144): runs the
remote updates; on success returns data with issue_number, url and
updated_fields (= the keys of the filtered update dict); any exception is
normalized by handle_github_error into a failed result. -/
def _update_single_issue (remote : UpdateOracle) (index : Nat) (issue_number : PyVal)
    (updates : List (String × PyVal)) (owner repo : String) : BatchOperationResult :=
  match remote owner repo issue_number updates with
  | .ok issue =>
    { index := index, success := true,
      data := some (.dict [("issue_number", .int issue.number),
        ("url", .str issue.html_url),
        ("updated_fields", .list (updates.map (fun kv => PyVal.str kv.1)))]) }
  | .error e =>
    { index := index, success := false,
      error := some (.dict (handle_github_error e).to_dict) }

/-- Data read from the issue object by `_add_labels_to_issue` after the
add: `issue.number` and the names of `issue.labels`. -/
structure LabelsOutcome where
  number : Int
  all_labels : List String

/-- Oracle for the remote work of `_add_labels_to_issue`
(tools/batch_operations.py lines 248-254: get_repo, get_issue,
add_to_labels), applied to owner, repo, issue number value and labels. -/
def LabelsOracle : Type :=
  String → String → PyVal → PyVal → Except GhException LabelsOutcome

/-- _add_labels_to_issue (tools/batch_operations.py lines 228-271). -/
def _add_labels_to_issue (remote : LabelsOracle) (index : Nat) (issue_number : PyVal)
    (labels : PyVal) (owner repo : String) : BatchOperationResult :=
  match remote owner repo issue_number labels with
  | .ok outcome =>
    { index := index, success := true,
      data := some (.dict [("issue_number", .int outcome.number),
        ("added_labels", labels),
        ("all_labels", .list (outcome.all_labels.map PyVal.str))]) }
  | .error e =>
    { index := index, success := false,
      error := some (.dict (handle_github_error e).to_dict) }

/-- Data read after linking an issue to a project: `issue.number` and the
item id from the GraphQL mutation response. -/
structure LinkOutcome where
  number : Int
  item_id : String

/-- Oracle for the remote work of `_link_issue_to_project`
(tools/batch_operations.py lines 380-409: get_repo, get_issue, GraphQL
addProjectV2ItemById), applied to owner, repo, issue number, project id. -/
def LinkOracle : Type :=
  String → String → Int → String → Except GhException LinkOutcome

/-- _link_issue_to_project (tools/batch_operations.py lines 360-426). -/
def _link_issue_to_project (remote : LinkOracle) (index : Nat) (issue_number : Int)
    (project_id : String) (owner repo : String) : BatchOperationResult :=
  match remote owner repo issue_number project_id with
  | .ok outcome =>
    { index := index, success := true,
      data := some (.dict [("issue_number", .int outcome.number),
        ("project_id", .str project_id),
        ("item_id", .str outcome.item_id)]) }
  | .error e =>
    { index := index, success := false,
      error := some (.dict (handle_github_error e).to_dict) }

/-- Data read from a freshly created issue object by
`_create_single_issue` (tools/issues.py lines 51-62). -/
structure CreatedIssue where
  number : Int
  html_url : String
  state : String
  title : String
  labels : List String
  milestone : Option String

/-- The remote client seen by `_create_single_issue` (tools/issues.py):
`get_repo` on "owner/repo" (can raise before the title check), then
`create_issue`, which covers building create_args from the item data, the
optional `get_milestone` lookup and the create call, collapsed into one
oracle applied to owner, repo and the raw issue_data mapping. -/
structure CreateClient where
  get_repo : String → Except GhException Unit
  create_issue : String → String → List (String × PyVal) → Except GhException CreatedIssue

/-- The `ValueError("title is required")` raised inside
`_create_single_issue` (tools/issues.py line 37) as it reaches
handle_github_error: a plain exception with no status and no data. -/
def titleRequiredError : GhException :=
  { status := Option.none, data := Option.none, msg := "title is required",
    tyName := "ValueError" }

/-- _create_single_issue (tools/issues.py lines 19-66).  The Python code
returns a plain dict with keys index/success/data|error; we carry it as a
`BatchOperationResult`, whose `to_dict` is exactly that dict.  A falsy
title raises `ValueError("title is required")` inside the try-block,
caught by the same except-clause as remote failures. -/
def _create_single_issue (client : CreateClient) (index : Nat)
    (issue_data : List (String × PyVal)) (owner repo : String) : BatchOperationResult :=
  match client.get_repo (owner ++ "/" ++ repo) with
  | .error e =>
    { index := index, success := false,
      error := some (.dict (handle_github_error e).to_dict) }
  | .ok _ =>
    let title := dictGet issue_data "title"
    if !pyTruthy title then
      { index := index, success := false,
        error := some (.dict (handle_github_error titleRequiredError).to_dict) }
    else
      match client.create_issue owner repo issue_data with
      | .error e =>
        { index := index, success := false,
          error := some (.dict (handle_github_error e).to_dict) }
      | .ok issue =>
        { index := index, success := true,
          data := some (.dict [("issue_number", .int issue.number),
            ("url", .str issue.html_url),
            ("state", .str issue.state),
            ("title", .str issue.title),
            ("labels", .list (issue.labels.map PyVal.str)),
            ("milestone", match issue.milestone with
              | some t => .str t
              | Option.none => .none)]) }

/-- The clamp `max_workers = min(max(1, max_workers), 10)` applied by every
batch tool (batch_operations.py lines 178, 308, 459; issues.py line 92). -/
def clampWorkers (max_workers : Int) : Int := min (max 1 max_workers) 10

/-- The `for i, item in enumerate(items)` validation loops of the batch
tools: returns the message of the first item-level violation (the loop
raises at the first violation it meets), None when every item passes. -/
def firstItemError (check : Nat → α → Option String) : Nat → List α → Option String
  | _, [] => Option.none
  | i, x :: xs =>
    match check i x with
    | some msg => some msg
    | Option.none => firstItemError check (i + 1) xs

/-- The sort key of `results.sort(key=lambda r: r.index)`. -/
def leIdx (a b : BatchOperationResult) : Bool := a.index ≤ b.index

/-- One submitted future of batch_update_issues (lines 187-197):
item `index` runs `_update_single_issue` on `update["issue_number"]` and
the update dict with the issue_number key filtered out. -/
def batchUpdateOp (remote : UpdateOracle) (updates : List (List (String × PyVal)))
    (owner repo : String) (index : Nat) : BatchOperationResult :=
  match updates.get? index with
  | some update =>
    _update_single_issue remote index (dictGet update "issue_number")
      (update.filter (fun kv => kv.1 != "issue_number")) owner repo
  | Option.none => { index := index, success := false }

/-- batch_update_issues (tools/batch_operations.py lines 147-225):
pre-flight validation, worker clamp, concurrent fan-out (completion order
given by `order`), sort by index, aggregate counts, serialize. -/
def batch_update_issues (remote : UpdateOracle) (updates : List (List (String × PyVal)))
    (owner repo : String) (max_workers : Int) (order : List Nat) :
    Except String (List (String × PyVal)) :=
  if updates.isEmpty then .error "updates list cannot be empty"
  else if 50 < updates.length then
    .error "Maximum 50 updates per batch (rate limiting protection)"
  else
    match firstItemError (fun i update =>
        if (dictGet? update "issue_number").isNone then
          some s!"Update at index {i} missing required \x27issue_number\x27 field"
        else Option.none) 0 updates with
    | some msg => .error msg
    | Option.none =>
      let _max_workers := clampWorkers max_workers
      let op := batchUpdateOp remote updates owner repo
      let results := (order.map op).mergeSort leIdx
      let successful := results.countP (fun r => r.success)
      let failed := results.countP (fun r => !r.success)
      let response : BatchResponse :=
        { total := updates.length, successful := successful,
          failed := failed, results := results }
      .ok response.to_dict

/-- One submitted future of batch_add_labels (lines 319-329). -/
def batchLabelsOp (remote : LabelsOracle) (operations : List (List (String × PyVal)))
    (owner repo : String) (index : Nat) : BatchOperationResult :=
  match operations.get? index with
  | some op =>
    _add_labels_to_issue remote index (dictGet op "issue_number") (dictGet op "labels")
      owner repo
  | Option.none => { index := index, success := false }

/-- batch_add_labels (tools/batch_operations.py lines 274-357). -/
def batch_add_labels (remote : LabelsOracle) (operations : List (List (String × PyVal)))
    (owner repo : String) (max_workers : Int) (order : List Nat) :
    Except String (List (String × PyVal)) :=
  if operations.isEmpty then .error "operations list cannot be empty"
  else if 50 < operations.length then
    .error "Maximum 50 operations per batch (rate limiting protection)"
  else
    match firstItemError (fun i op =>
        if (dictGet? op "issue_number").isNone then
          some s!"Operation at index {i} missing required \x27issue_number\x27 field"
        else if (dictGet? op "labels").isNone then
          some s!"Operation at index {i} missing required \x27labels\x27 field"
        else if !pyTruthy (dictGet op "labels") then
          some s!"Operation at index {i} has empty \x27labels\x27 list"
        else Option.none) 0 operations with
    | some msg => .error msg
    | Option.none =>
      let _max_workers := clampWorkers max_workers
      let op := batchLabelsOp remote operations owner repo
      let results := (order.map op).mergeSort leIdx
      let successful := results.countP (fun r => r.success)
      let failed := results.countP (fun r => !r.success)
      let response : BatchResponse :=
        { total := operations.length, successful := successful,
          failed := failed, results := results }
      .ok response.to_dict

/-- One submitted future of batch_link_to_project (lines 471-481). -/
def batchLinkOp (remote : LinkOracle) (issue_numbers : List Int) (project_id : String)
    (owner repo : String) (index : Nat) : BatchOperationResult :=
  match issue_numbers.get? index with
  | some issue_number =>
    _link_issue_to_project remote index issue_number project_id owner repo
  | Option.none => { index := index, success := false }

/-- batch_link_to_project (tools/batch_operations.py lines 429-509). -/
def batch_link_to_project (remote : LinkOracle) (issue_numbers : List Int)
    (project_id : String) (owner repo : String) (max_workers : Int) (order : List Nat) :
    Except String (List (String × PyVal)) :=
  if issue_numbers.isEmpty then .error "issue_numbers list cannot be empty"
  else if 50 < issue_numbers.length then
    .error "Maximum 50 issues per batch (rate limiting protection)"
  else if project_id.isEmpty || !(strStartsWith project_id "PVT_") then
    .error "project_id must be a valid GitHub Project node ID (starts with \x27PVT_\x27)"
  else
    let _max_workers := clampWorkers max_workers
    let op := batchLinkOp remote issue_numbers project_id owner repo
    let results := (order.map op).mergeSort leIdx
    let successful := results.countP (fun r => r.success)
    let failed := results.countP (fun r => !r.success)
    let response : BatchResponse :=
      { total := issue_numbers.length, successful := successful,
        failed := failed, results := results }
    .ok response.to_dict

/-- One submitted future of create_issues (tools/issues.py lines 100-103). -/
def createIssuesOp (client : CreateClient) (issues : List (List (String × PyVal)))
    (owner repo : String) (index : Nat) : BatchOperationResult :=
  match issues.get? index with
  | some issue => _create_single_issue client index issue owner repo
  | Option.none => { index := index, success := false }

/-- create_issues (tools/issues.py lines 69-119): pre-flight validation,
worker clamp, direct call for a single issue or fan-out for several, sort
by r["index"], aggregate and serialize (lines 112-119; `failed` is
`len(results) - successful` here). -/
def create_issues (client : CreateClient) (issues : List (List (String × PyVal)))
    (owner repo : String) (max_workers : Int) (order : List Nat) :
    Except String (List (String × PyVal)) :=
  if issues.isEmpty then .error "issues list cannot be empty"
  else if 50 < issues.length then .error "Maximum 50 issues per batch"
  else
    let _max_workers := clampWorkers max_workers
    let op := createIssuesOp client issues owner repo
    let collected := if issues.length == 1 then [op 0] else order.map op
    let results := collected.mergeSort leIdx
    let successful := results.countP (fun r => r.success)
    let failed := results.length - successful
    .ok [("total", .int issues.length),
      ("successful", .int successful),
      ("failed", .int failed),
      ("success_rate", .str (formatPercent1 successful issues.length ++ "%")),
      ("execution_time_seconds", PyVal.none),
      ("results", .list (results.map (fun r => .dict r.to_dict)))]

/-- The overall-conclusion aggregation of check_ci_status (tools/ci.py
lines 115-126): over the latest runs' conclusions, drop the nulls; empty
gives null, any "failure" gives "failure", else any "cancelled" gives
"cancelled", else all "success" gives "success", else the first
conclusion. -/
def overall_conclusion (workflowConclusions : List (Option String)) : Option String :=
  let conclusions := workflowConclusions.filterMap id
  if conclusions.isEmpty then Option.none
  else if conclusions.any (fun c => c == "failure") then some "failure"
  else if conclusions.any (fun c => c == "cancelled") then some "cancelled"
  else if conclusions.all (fun c => c == "success") then some "success"
  else conclusions.head?

/-- The "results" entry of a serialized batch response. -/
def responseResults (response : List (String × PyVal)) : List PyVal :=
  match dictGet? response "results" with
  | some (.list rs) => rs
  | _ => []

/-- Field access on one serialized result (a dict PyVal). -/
def pyField (r : PyVal) (k : String) : Option PyVal :=
  match r with
  | .dict d => dictGet? d k
  | _ => Option.none

/-- The "index" values of the serialized results, in sequence order. -/
def resultIndexes (response : List (String × PyVal)) : List (Option PyVal) :=
  (responseResults response).map (fun r => pyField r "index")

/-! ### Generic lemmas about the collect-and-sort pipeline -/

theorem leIdx_trans (a b c : BatchOperationResult) :
    leIdx a b → leIdx b c → leIdx a c := by
  simp only [leIdx, decide_eq_true_eq]
  omega

theorem leIdx_total (a b : BatchOperationResult) : leIdx a b || leIdx b a := by
  simp only [leIdx, Bool.or_eq_true, decide_eq_true_eq]
  omega

theorem map_index_reconstruct {op : Nat → BatchOperationResult} :
    ∀ {l : List BatchOperationResult} {ks : List Nat},
      (∀ x ∈ l, x = op x.index) → l.map (fun r => r.index) = ks → l = ks.map op := by
  intro l
  induction l with
  | nil =>
    intro ks _ h
    simp only [List.map_nil] at h
    simp [← h]
  | cons a t ih =>
    intro ks hmem h
    cases ks with
    | nil => simp at h
    | cons k ks' =>
      simp only [List.map_cons, List.cons.injEq] at h
      have ha : a = op a.index := hmem a (List.mem_cons_self a t)
      rw [List.map_cons]
      congr 1
      · rw [ha, h.1]
      · exact ih (fun x hx => hmem x (List.mem_cons_of_mem _ hx)) h.2

/-- Collecting the per-item results in any completion order and sorting by
index yields the results in input order: the sorted list is exactly
`(range n).map op`. -/
theorem collectSort_eq {op : Nat → BatchOperationResult} (hop : ∀ i, (op i).index = i)
    {n : Nat} {order : List Nat} (h : order.Perm (List.range n)) :
    (order.map op).mergeSort leIdx = (List.range n).map op := by
  have hperm : ((order.map op).mergeSort leIdx).Perm ((List.range n).map op) :=
    (List.mergeSort_perm (order.map op) leIdx).trans (h.map op)
  have hsorted : ((order.map op).mergeSort leIdx).Pairwise (fun a b => leIdx a b) :=
    List.sorted_mergeSort leIdx_trans leIdx_total (order.map op)
  have hmapped : (((order.map op).mergeSort leIdx).map (fun r => r.index)).Perm
      (List.range n) := by
    have : ((List.range n).map op).map (fun r => r.index) = List.range n := by
      rw [List.map_map]
      have : (List.range n).map (fun i => (op i).index) = (List.range n).map id :=
        List.map_congr_left (fun a _ => hop a)
      simpa using this
    exact this ▸ hperm.map (fun r => r.index)
  have hidx : ((order.map op).mergeSort leIdx).map (fun r => r.index) = List.range n := by
    haveI : IsAntisymm ℕ (· ≤ ·) := ⟨fun _ _ => Nat.le_antisymm⟩
    refine List.eq_of_perm_of_sorted (r := (· ≤ ·)) hmapped ?_ ?_
    · exact List.Pairwise.map _ (fun a b hab => by
        simpa [leIdx, decide_eq_true_eq] using hab) hsorted
    · exact List.pairwise_le_range n
  have hmem : ∀ x ∈ (order.map op).mergeSort leIdx, x = op x.index := by
    intro x hx
    have hx' : x ∈ (List.range n).map op := hperm.subset hx
    obtain ⟨i, _, rfl⟩ := List.mem_map.mp hx'
    rw [hop]
  exact map_index_reconstruct hmem hidx

/-- A validation loop whose item check never fires returns None. -/
theorem firstItemError_none {check : Nat → α → Option String} {l : List α}
    (h : ∀ i x, x ∈ l → check i x = Option.none) :
    ∀ k, firstItemError check k l = Option.none := by
  induction l with
  | nil => intro k; rfl
  | cons a t ih =>
    intro k
    simp only [firstItemError, h k a (List.mem_cons_self a t)]
    exact ih (fun i x hx => h i x (List.mem_cons_of_mem _ hx)) (k + 1)

/-- A validation loop raises with the message of the first item that
violates its check. -/
theorem firstItemError_first {check : Nat → α → Option String} {msg : String} :
    ∀ (l : List α) (k i : Nat) (u : α),
      (∀ j x, j < i → l.get? j = some x → check (k + j) x = Option.none) →
      l.get? i = some u → check (k + i) u = some msg →
      firstItemError check k l = some msg := by
  intro l
  induction l with
  | nil => intro k i u _ hu; simp at hu
  | cons a t ih =>
    intro k i u hprev hu hchk
    cases i with
    | zero =>
      have hau : a = u := by simpa using hu
      subst hau
      simp only [Nat.add_zero] at hchk
      simp only [firstItemError, hchk]
    | succ j =>
      have ha : check k a = Option.none := by
        simpa using hprev 0 a (Nat.succ_pos j) rfl
      simp only [firstItemError, ha]
      refine ih (k + 1) j u ?_ (by simpa using hu) ?_
      · intro j' x hj' hx
        have := hprev (j' + 1) x (by omega) (by simpa using hx)
        simpa [Nat.add_assoc, Nat.add_comm 1 j'] using this
      · have : k + 1 + j = k + (j + 1) := by omega
        rw [this]
        exact hchk

/-! ### Per-tool plumbing lemmas -/

theorem batchUpdateOp_index (remote : UpdateOracle) (updates : List (List (String × PyVal)))
    (owner repo : String) (i : Nat) :
    (batchUpdateOp remote updates owner repo i).index = i := by
  unfold batchUpdateOp _update_single_issue
  cases updates.get? i with
  | none => rfl
  | some u =>
    cases h : remote owner repo (dictGet u "issue_number")
      (List.filter (fun kv => kv.1 != "issue_number") u) <;> simp [h]

theorem batchLabelsOp_index (remote : LabelsOracle) (operations : List (List (String × PyVal)))
    (owner repo : String) (i : Nat) :
    (batchLabelsOp remote operations owner repo i).index = i := by
  unfold batchLabelsOp _add_labels_to_issue
  cases operations.get? i with
  | none => rfl
  | some op₀ =>
    cases h : remote owner repo (dictGet op₀ "issue_number") (dictGet op₀ "labels") <;>
      simp [h]

theorem batchLinkOp_index (remote : LinkOracle) (issue_numbers : List Int)
    (project_id owner repo : String) (i : Nat) :
    (batchLinkOp remote issue_numbers project_id owner repo i).index = i := by
  unfold batchLinkOp _link_issue_to_project
  cases issue_numbers.get? i with
  | none => rfl
  | some num => cases h : remote owner repo num project_id <;> simp [h]

theorem createIssuesOp_index (client : CreateClient) (issues : List (List (String × PyVal)))
    (owner repo : String) (i : Nat) :
    (createIssuesOp client issues owner repo i).index = i := by
  unfold createIssuesOp _create_single_issue
  cases issues.get? i with
  | none => rfl
  | some issue =>
    cases hr : client.get_repo (owner ++ "/" ++ repo) with
    | error e => simp [hr]
    | ok u =>
      cases ht : pyTruthy (dictGet issue "title") with
      | false => simp [hr, ht]
      | true =>
        cases hc : client.create_issue owner repo issue <;> simp [hr, ht, hc]

/-- Canonical run of batch_update_issues when pre-flight validation passes:
the returned dict is the serialization of the results in input order. -/
theorem batch_update_issues_run (remote : UpdateOracle)
    (updates : List (List (String × PyVal))) (owner repo : String) (mw : Int)
    (order : List Nat) (h1 : updates ≠ []) (h2 : updates.length ≤ 50)
    (h3 : ∀ u ∈ updates, (dictGet? u "issue_number").isSome)
    (hord : order.Perm (List.range updates.length)) :
    batch_update_issues remote updates owner repo mw order =
      .ok (BatchResponse.to_dict
        { total := updates.length,
          successful := ((List.range updates.length).map
            (batchUpdateOp remote updates owner repo)).countP (fun r => r.success),
          failed := ((List.range updates.length).map
            (batchUpdateOp remote updates owner repo)).countP (fun r => !r.success),
          results := (List.range updates.length).map
            (batchUpdateOp remote updates owner repo) }) := by
  have hval : firstItemError (fun i update =>
      if (dictGet? update "issue_number").isNone then
        some s!"Update at index {i} missing required \x27issue_number\x27 field"
      else Option.none) 0 updates = Option.none := by
    apply firstItemError_none
    intro i x hx
    have h := h3 x hx
    cases hdg : dictGet? x "issue_number" with
    | none => rw [hdg] at h; simp at h
    | some v => simp [hdg]
  unfold batch_update_issues
  rw [if_neg (by simpa using h1), if_neg (by omega), hval]
  simp only []
  rw [collectSort_eq (batchUpdateOp_index remote updates owner repo) hord]

/-- Canonical run of batch_add_labels when pre-flight validation passes. -/
theorem batch_add_labels_run (remote : LabelsOracle)
    (operations : List (List (String × PyVal))) (owner repo : String) (mw : Int)
    (order : List Nat) (h1 : operations ≠ []) (h2 : operations.length ≤ 50)
    (h3 : ∀ x ∈ operations, (dictGet? x "issue_number").isSome ∧
      (dictGet? x "labels").isSome ∧ pyTruthy (dictGet x "labels"))
    (hord : order.Perm (List.range operations.length)) :
    batch_add_labels remote operations owner repo mw order =
      .ok (BatchResponse.to_dict
        { total := operations.length,
          successful := ((List.range operations.length).map
            (batchLabelsOp remote operations owner repo)).countP (fun r => r.success),
          failed := ((List.range operations.length).map
            (batchLabelsOp remote operations owner repo)).countP (fun r => !r.success),
          results := (List.range operations.length).map
            (batchLabelsOp remote operations owner repo) }) := by
  have hval : firstItemError (fun i op₀ =>
      if (dictGet? op₀ "issue_number").isNone then
        some s!"Operation at index {i} missing required \x27issue_number\x27 field"
      else if (dictGet? op₀ "labels").isNone then
        some s!"Operation at index {i} missing required \x27labels\x27 field"
      else if !pyTruthy (dictGet op₀ "labels") then
        some s!"Operation at index {i} has empty \x27labels\x27 list"
      else Option.none) 0 operations = Option.none := by
    apply firstItemError_none
    intro i x hx
    obtain ⟨ha, hb, hc⟩ := h3 x hx
    cases hdg : dictGet? x "issue_number" with
    | none => rw [hdg] at ha; simp at ha
    | some v =>
      cases hdl : dictGet? x "labels" with
      | none => rw [hdl] at hb; simp at hb
      | some w => simp [hdg, hdl, hc]
  unfold batch_add_labels
  rw [if_neg (by simpa using h1), if_neg (by omega), hval]
  simp only []
  rw [collectSort_eq (batchLabelsOp_index remote operations owner repo) hord]

/-- Canonical run of batch_link_to_project when pre-flight validation passes. -/
theorem batch_link_to_project_run (remote : LinkOracle) (issue_numbers : List Int)
    (project_id owner repo : String) (mw : Int) (order : List Nat)
    (h1 : issue_numbers ≠ []) (h2 : issue_numbers.length ≤ 50)
    (h3 : strStartsWith project_id "PVT_" = true)
    (hord : order.Perm (List.range issue_numbers.length)) :
    batch_link_to_project remote issue_numbers project_id owner repo mw order =
      .ok (BatchResponse.to_dict
        { total := issue_numbers.length,
          successful := ((List.range issue_numbers.length).map
            (batchLinkOp remote issue_numbers project_id owner repo)).countP
              (fun r => r.success),
          failed := ((List.range issue_numbers.length).map
            (batchLinkOp remote issue_numbers project_id owner repo)).countP
              (fun r => !r.success),
          results := (List.range issue_numbers.length).map
            (batchLinkOp remote issue_numbers project_id owner repo) }) := by
  have hne : ¬(project_id.isEmpty || !(strStartsWith project_id "PVT_")) = true := by
    have hemp : project_id.isEmpty = false := by
      cases hpe : project_id.isEmpty
      · rfl
      · exfalso
        have he : project_id = "" := (String.isEmpty_iff project_id).mp hpe
        rw [he] at h3
        exact absurd h3 (by decide)
    simp [hemp, h3]
  unfold batch_link_to_project
  rw [if_neg (by simpa using h1), if_neg (by omega), if_neg hne]
  simp only []
  rw [collectSort_eq (batchLinkOp_index remote issue_numbers project_id owner repo) hord]

/-- Canonical run of create_issues when pre-flight validation passes (both
the single-issue direct path and the fan-out path). -/
theorem create_issues_run (client : CreateClient) (issues : List (List (String × PyVal)))
    (owner repo : String) (mw : Int) (order : List Nat)
    (h1 : issues ≠ []) (h2 : issues.length ≤ 50)
    (hord : order.Perm (List.range issues.length)) :
    create_issues client issues owner repo mw order =
      .ok [("total", .int issues.length),
        ("successful", .int (((List.range issues.length).map
          (createIssuesOp client issues owner repo)).countP (fun r => r.success))),
        ("failed", .int ((issues.length - ((List.range issues.length).map
          (createIssuesOp client issues owner repo)).countP (fun r => r.success) : Nat))),
        ("success_rate", .str (formatPercent1 (((List.range issues.length).map
          (createIssuesOp client issues owner repo)).countP (fun r => r.success))
            issues.length ++ "%")),
        ("execution_time_seconds", PyVal.none),
        ("results", .list (((List.range issues.length).map
          (createIssuesOp client issues owner repo)).map (fun r => .dict r.to_dict)))] := by
  have hsort : ((if issues.length == 1
        then [createIssuesOp client issues owner repo 0]
        else order.map (createIssuesOp client issues owner repo)).mergeSort leIdx) =
      (List.range issues.length).map (createIssuesOp client issues owner repo) := by
    by_cases hone : issues.length = 1
    · rw [if_pos (by simpa using hone), List.mergeSort_singleton, hone]
      rfl
    · rw [if_neg (by simpa using hone)]
      exact collectSort_eq (createIssuesOp_index client issues owner repo) hord
  unfold create_issues
  rw [if_neg (by simpa using h1), if_neg (by omega)]
  simp only [hsort, List.length_map, List.length_range]

/-! ### Serialization helper lemmas -/

theorem to_dict_index (r : BatchOperationResult) :
    dictGet? r.to_dict "index" = some (.int r.index) := by
  obtain ⟨i, s, d, e⟩ := r
  cases s <;> rfl

theorem to_dict_data_isSome (r : BatchOperationResult) :
    (dictGet? r.to_dict "data").isSome = r.success := by
  obtain ⟨i, s, d, e⟩ := r
  cases s <;> rfl

theorem to_dict_error_isSome (r : BatchOperationResult) :
    (dictGet? r.to_dict "error").isSome = !r.success := by
  obtain ⟨i, s, d, e⟩ := r
  cases s <;> rfl

theorem response_total (r : BatchResponse) :
    dictGet? (BatchResponse.to_dict r) "total" = some (.int r.total) := rfl

theorem response_successful (r : BatchResponse) :
    dictGet? (BatchResponse.to_dict r) "successful" = some (.int r.successful) := rfl

theorem response_failed (r : BatchResponse) :
    dictGet? (BatchResponse.to_dict r) "failed" = some (.int r.failed) := rfl

theorem response_success_rate (r : BatchResponse) :
    dictGet? (BatchResponse.to_dict r) "success_rate" =
      some (.str (if 0 < r.total then formatPercent1 r.successful r.total ++ "%"
        else "0%")) := rfl

theorem responseResults_to_dict (r : BatchResponse) :
    responseResults (BatchResponse.to_dict r) = r.results.map (fun x => .dict x.to_dict) :=
  rfl

theorem resultIndexes_to_dict (r : BatchResponse) :
    resultIndexes (BatchResponse.to_dict r) =
      r.results.map (fun x => some (.int x.index)) := by
  unfold resultIndexes
  rw [responseResults_to_dict, List.map_map]
  refine List.map_congr_left (fun a _ => ?_)
  show pyField (.dict a.to_dict) "index" = some (.int a.index)
  simp [pyField, to_dict_index]

theorem countP_not_add {p : α → Bool} (l : List α) :
    l.countP (fun a => !p a) + l.countP p = l.length := by
  induction l with
  | nil => rfl
  | cons a t ih =>
    cases h : p a <;> simp [List.countP_cons, h] <;> omega

/-! ### Claim theorems -/

/-- C8: for every BatchItemResult, the serialized form contains the "data"
key iff `success = true` and the "error" key iff `success = false`:
exactly one of the two payload keys is present, decided by the success
flag. -/
theorem batch_result_payload_keys (r : BatchOperationResult) :
    ((dictGet? r.to_dict "data").isSome = r.success) ∧
    ((dictGet? r.to_dict "error").isSome = !r.success) :=
  ⟨to_dict_data_isSome r, to_dict_error_isSome r⟩

/-- C9 counterexample: with conclusions ["success", "skipped"] the
fallback `conclusions[0]` makes the overall conclusion "success" even
though not all non-null conclusions are success, refuting the claim that
"success" is reported only if all non-null conclusions are success. -/
theorem overall_conclusion_success_counterexample :
    overall_conclusion [some "success", some "skipped"] = some "success" ∧
    ([some "success", some "skipped"].filterMap id).all
      (fun c => c == "success") = false := by
  exact ⟨rfl, rfl⟩

/-- C9 (amended): the overall CI conclusion of check_ci_status follows the
fixed precedence "failure" if any non-null conclusion is failure, else
"cancelled" if any is cancelled, else "success" if all non-null
conclusions are success, and null when no workflow has a non-null
conclusion; in the remaining case (no failure, no cancelled, not all
success) the overall conclusion is the first non-null conclusion, which
can be "success" even when other conclusions are non-success values. -/
theorem overall_conclusion_precedence (ws : List (Option String)) :
    ((ws.filterMap id).any (fun c => c == "failure") = true →
      overall_conclusion ws = some "failure") ∧
    ((ws.filterMap id).any (fun c => c == "failure") = false →
      (ws.filterMap id).any (fun c => c == "cancelled") = true →
      overall_conclusion ws = some "cancelled") ∧
    (ws.filterMap id ≠ [] →
      (ws.filterMap id).all (fun c => c == "success") = true →
      overall_conclusion ws = some "success") ∧
    (ws.filterMap id = [] → overall_conclusion ws = Option.none) ∧
    ((ws.filterMap id).any (fun c => c == "failure") = false →
      (ws.filterMap id).any (fun c => c == "cancelled") = false →
      (ws.filterMap id).all (fun c => c == "success") = false →
      overall_conclusion ws = (ws.filterMap id).head?) := by
  unfold overall_conclusion
  refine ⟨?_, ?_, ?_, ?_, ?_⟩
  · intro hf
    have hne : (ws.filterMap id).isEmpty = false := by
      rcases List.any_eq_true.mp hf with ⟨x, hx, _⟩
      cases hfm : ws.filterMap id with
      | nil => rw [hfm] at hx; simp at hx
      | cons a t => simp [hfm]
    simp [hne, hf]
  · intro hf hc
    have hne : (ws.filterMap id).isEmpty = false := by
      rcases List.any_eq_true.mp hc with ⟨x, hx, _⟩
      cases hfm : ws.filterMap id with
      | nil => rw [hfm] at hx; simp at hx
      | cons a t => simp [hfm]
    simp [hne, hf, hc]
  · intro hne hall
    have hf : (ws.filterMap id).any (fun c => c == "failure") = false := by
      rw [List.any_eq_false]
      intro x hx
      have hx' := List.all_eq_true.mp hall x hx
      have : x = "success" := by simpa using hx'
      simp [this]
    have hc : (ws.filterMap id).any (fun c => c == "cancelled") = false := by
      rw [List.any_eq_false]
      intro x hx
      have hx' := List.all_eq_true.mp hall x hx
      have : x = "success" := by simpa using hx'
      simp [this]
    have hie : (ws.filterMap id).isEmpty = false := by
      cases hfm : ws.filterMap id with
      | nil => exact absurd hfm hne
      | cons a t => simp [hfm]
    simp [hie, hf, hc, hall]
  · intro he
    simp [he]
  · intro hf hc ha
    have hie : (ws.filterMap id).isEmpty = false := by
      cases hfm : ws.filterMap id with
      | nil =>
        rw [hfm] at ha
        simp at ha
      | cons a t => simp [hfm]
    simp [hie, hf, hc, ha]

/-- Fixture: a generic exception with no status attribute and no status
code in its text (Python RuntimeError("boom")). -/
def runtimeBoom : GhException :=
  { status := Option.none, data := Option.none, msg := "boom", tyName := "RuntimeError" }

/-- Fixture: an exception whose text contains several apparent status
codes. -/
def multiCodeError : GhException :=
  { status := Option.none, data := Option.none, msg := "404 403 422",
    tyName := "GithubException" }

/-- Fixture: a 404 GithubException. -/
def notFoundError : GhException :=
  { status := some 404, data := Option.none, msg := "not found",
    tyName := "GithubException" }

/-- C9 witness: a concrete list with a failure conclusion resolves to
"failure". -/
theorem overall_conclusion_precedence_witness :
    ([some "failure", some "success"].filterMap id).any
      (fun c => c == "failure") = true ∧
    overall_conclusion [some "failure", some "success"] = some "failure" :=
  ⟨rfl, (overall_conclusion_precedence [some "failure", some "success"]).1 rfl⟩

/-- C5: every normalized error's code lies in the closed taxonomy, the
status checks are first-match in the fixed order 404, 403, 401, 422, and
an exception matching none of the four yields GITHUB_API_ERROR carrying
the exception's own string representation and only its type name in the
details. -/
theorem handle_github_error_taxonomy (e : GhException) :
    ((handle_github_error e).code = "RESOURCE_NOT_FOUND" ∨
     (handle_github_error e).code = "FORBIDDEN" ∨
     (handle_github_error e).code = "UNAUTHORIZED" ∨
     (handle_github_error e).code = "VALIDATION_FAILED" ∨
     (handle_github_error e).code = "GITHUB_API_ERROR") ∧
    ((e.status == some 404 || strContains e.msg "404") = true →
      (handle_github_error e).code = "RESOURCE_NOT_FOUND") ∧
    ((e.status == some 404 || strContains e.msg "404") = false →
      (e.status == some 403 || strContains e.msg "403") = true →
      (handle_github_error e).code = "FORBIDDEN") ∧
    ((e.status == some 404 || strContains e.msg "404") = false →
      (e.status == some 403 || strContains e.msg "403") = false →
      (e.status == some 401 || strContains e.msg "401") = true →
      (handle_github_error e).code = "UNAUTHORIZED") ∧
    ((e.status == some 404 || strContains e.msg "404") = false →
      (e.status == some 403 || strContains e.msg "403") = false →
      (e.status == some 401 || strContains e.msg "401") = false →
      (e.status == some 422 || strContains e.msg "422") = true →
      (handle_github_error e).code = "VALIDATION_FAILED") ∧
    ((e.status == some 404 || strContains e.msg "404") = false →
      (e.status == some 403 || strContains e.msg "403") = false →
      (e.status == some 401 || strContains e.msg "401") = false →
      (e.status == some 422 || strContains e.msg "422") = false →
      handle_github_error e =
        { code := "GITHUB_API_ERROR", message := e.msg,
          details := some (.dict [("original_error", .str e.tyName)]),
          suggestions := [] }) := by
  unfold handle_github_error
  by_cases h1 : (e.status == some 404 || strContains e.msg "404") = true
  · simp [h1]
  · rw [Bool.not_eq_true] at h1
    by_cases h2 : (e.status == some 403 || strContains e.msg "403") = true
    · simp [h1, h2]
    · rw [Bool.not_eq_true] at h2
      by_cases h3 : (e.status == some 401 || strContains e.msg "401") = true
      · simp [h1, h2, h3]
      · rw [Bool.not_eq_true] at h3
        by_cases h4 : (e.status == some 422 || strContains e.msg "422") = true
        · simp [h1, h2, h3, h4]
        · rw [Bool.not_eq_true] at h4
          simp [h1, h2, h3, h4]

/-- C5 witness: an exception whose text contains 404, 403 and 422 resolves
to RESOURCE_NOT_FOUND, the first check in the order. -/
theorem handle_github_error_taxonomy_witness :
    ((multiCodeError.status == some 404 || strContains multiCodeError.msg "404") =
      true) ∧
    (handle_github_error multiCodeError).code = "RESOURCE_NOT_FOUND" :=
  ⟨rfl, (handle_github_error_taxonomy multiCodeError).2.1 rfl⟩

/-- C7 counterexample: a generic exception (no status attribute, no status
code in its text) is normalized with an empty suggestions list, refuting
the claim that every normalized error carries at least one suggestion. -/
theorem handle_github_error_suggestions_counterexample :
    (handle_github_error runtimeBoom).suggestions = [] := rfl

/-- C7 (amended): every status-specific normalized error (codes
RESOURCE_NOT_FOUND, FORBIDDEN, UNAUTHORIZED, VALIDATION_FAILED) carries a
machine-readable code and at least one suggestion; the generic
GITHUB_API_ERROR fallback carries a code but an empty suggestions list,
and pre-flight validation rejections are plain ValueErrors carrying only a
message. -/
theorem handle_github_error_suggestions (e : GhException) :
    ((handle_github_error e).code ≠ "GITHUB_API_ERROR" →
      (handle_github_error e).suggestions ≠ []) ∧
    ((handle_github_error e).code = "GITHUB_API_ERROR" →
      (handle_github_error e).suggestions = []) := by
  unfold handle_github_error
  by_cases h1 : (e.status == some 404 || strContains e.msg "404") = true
  · simp [h1]
  · rw [Bool.not_eq_true] at h1
    by_cases h2 : (e.status == some 403 || strContains e.msg "403") = true
    · simp [h1, h2]
    · rw [Bool.not_eq_true] at h2
      by_cases h3 : (e.status == some 401 || strContains e.msg "401") = true
      · simp [h1, h2, h3]
      · rw [Bool.not_eq_true] at h3
        by_cases h4 : (e.status == some 422 || strContains e.msg "422") = true
        · simp [h1, h2, h3, h4]
        · rw [Bool.not_eq_true] at h4
          simp [h1, h2, h3, h4]

/-- C7 witness: a 404 exception's normalized error has a non-empty
suggestions list. -/
theorem handle_github_error_suggestions_witness :
    (handle_github_error notFoundError).code ≠ "GITHUB_API_ERROR" ∧
    (handle_github_error notFoundError).suggestions ≠ [] :=
  ⟨by decide, (handle_github_error_suggestions notFoundError).1 (by decide)⟩

theorem responseResults_create (a b c : PyVal) (sr : String) (rs : List PyVal) :
    responseResults [("total", a), ("successful", b), ("failed", c),
      ("success_rate", .str sr), ("execution_time_seconds", PyVal.none),
      ("results", .list rs)] = rs := rfl

theorem create_response_successful (a b c : PyVal) (sr : String) (rs : List PyVal) :
    dictGet? [("total", a), ("successful", b), ("failed", c),
      ("success_rate", .str sr), ("execution_time_seconds", PyVal.none),
      ("results", .list rs)] "successful" = some b := rfl

theorem create_response_failed (a b c : PyVal) (sr : String) (rs : List PyVal) :
    dictGet? [("total", a), ("successful", b), ("failed", c),
      ("success_rate", .str sr), ("execution_time_seconds", PyVal.none),
      ("results", .list rs)] "failed" = some c := rfl

theorem create_response_success_rate (a b c : PyVal) (sr : String) (rs : List PyVal) :
    dictGet? [("total", a), ("successful", b), ("failed", c),
      ("success_rate", .str sr), ("execution_time_seconds", PyVal.none),
      ("results", .list rs)] "success_rate" = some (.str sr) := rfl

/-- C1: for every batch call on N items (1 ≤ N ≤ 50) that passes
pre-flight validation, and for every completion order of the per-item
operations, the returned results sequence has index values exactly
0..N-1 in ascending order. -/
theorem batch_results_in_input_order
    (uo : UpdateOracle) (lo : LabelsOracle) (po : LinkOracle) (cc : CreateClient)
    (updates operations issues : List (List (String × PyVal)))
    (issue_numbers : List Int) (project_id owner repo : String) (mw : Int)
    (o1 o2 o3 o4 : List Nat)
    (hu1 : updates ≠ []) (hu2 : updates.length ≤ 50)
    (hu3 : ∀ u ∈ updates, (dictGet? u "issue_number").isSome)
    (ho1 : o1.Perm (List.range updates.length))
    (hl1 : operations ≠ []) (hl2 : operations.length ≤ 50)
    (hl3 : ∀ x ∈ operations, (dictGet? x "issue_number").isSome ∧
      (dictGet? x "labels").isSome ∧ pyTruthy (dictGet x "labels"))
    (ho2 : o2.Perm (List.range operations.length))
    (hp1 : issue_numbers ≠ []) (hp2 : issue_numbers.length ≤ 50)
    (hp3 : strStartsWith project_id "PVT_" = true)
    (ho3 : o3.Perm (List.range issue_numbers.length))
    (hc1 : issues ≠ []) (hc2 : issues.length ≤ 50)
    (ho4 : o4.Perm (List.range issues.length)) :
    (∃ resp, batch_update_issues uo updates owner repo mw o1 = .ok resp ∧
      resultIndexes resp = (List.range updates.length).map (fun i => some (.int i))) ∧
    (∃ resp, batch_add_labels lo operations owner repo mw o2 = .ok resp ∧
      resultIndexes resp = (List.range operations.length).map (fun i => some (.int i))) ∧
    (∃ resp, batch_link_to_project po issue_numbers project_id owner repo mw o3 =
        .ok resp ∧
      resultIndexes resp =
        (List.range issue_numbers.length).map (fun i => some (.int i))) ∧
    (∃ resp, create_issues cc issues owner repo mw o4 = .ok resp ∧
      resultIndexes resp = (List.range issues.length).map (fun i => some (.int i))) := by
  refine ⟨?_, ?_, ?_, ?_⟩
  · refine ⟨_, batch_update_issues_run uo updates owner repo mw o1 hu1 hu2 hu3 ho1, ?_⟩
    rw [resultIndexes_to_dict]
    show ((List.range updates.length).map (batchUpdateOp uo updates owner repo)).map
      (fun x => some (PyVal.int x.index)) = _
    rw [List.map_map]
    refine List.map_congr_left (fun i _ => ?_)
    simp [batchUpdateOp_index]
  · refine ⟨_, batch_add_labels_run lo operations owner repo mw o2 hl1 hl2 hl3 ho2, ?_⟩
    rw [resultIndexes_to_dict]
    show ((List.range operations.length).map (batchLabelsOp lo operations owner repo)).map
      (fun x => some (PyVal.int x.index)) = _
    rw [List.map_map]
    refine List.map_congr_left (fun i _ => ?_)
    simp [batchLabelsOp_index]
  · refine ⟨_, batch_link_to_project_run po issue_numbers project_id owner repo mw o3
      hp1 hp2 hp3 ho3, ?_⟩
    rw [resultIndexes_to_dict]
    show ((List.range issue_numbers.length).map
      (batchLinkOp po issue_numbers project_id owner repo)).map
        (fun x => some (PyVal.int x.index)) = _
    rw [List.map_map]
    refine List.map_congr_left (fun i _ => ?_)
    simp [batchLinkOp_index]
  · refine ⟨_, create_issues_run cc issues owner repo mw o4 hc1 hc2 ho4, ?_⟩
    unfold resultIndexes
    rw [responseResults_create, List.map_map, List.map_map]
    refine List.map_congr_left (fun i _ => ?_)
    show pyField (.dict (createIssuesOp cc issues owner repo i).to_dict) "index" = _
    simp [pyField, to_dict_index, createIssuesOp_index]

/-- Fixture oracles and inputs for concrete witnesses: an always-succeeding
remote client and small valid batches. -/
def uoOk : UpdateOracle := fun _ _ _ _ => .ok { number := 1, html_url := "u" }

def loOk : LabelsOracle := fun _ _ _ _ => .ok { number := 1, all_labels := ["bug"] }

def poOk : LinkOracle := fun _ _ _ _ => .ok { number := 1, item_id := "item" }

def ccOk : CreateClient where
  get_repo := fun _ => .ok ()
  create_issue := fun _ _ _ => .ok
    { number := 1, html_url := "u", state := "open",
      title := "t", labels := [], milestone := Option.none }

def updatesTwo : List (List (String × PyVal)) :=
  [[("issue_number", PyVal.int 1)], [("issue_number", PyVal.int 2)]]

def opsOne : List (List (String × PyVal)) :=
  [[("issue_number", PyVal.int 1), ("labels", PyVal.list [PyVal.str "bug"])]]

def numsTwo : List Int := [5, 6]

def issuesTwo : List (List (String × PyVal)) :=
  [[("title", PyVal.str "a")], [("title", PyVal.str "b")]]

/-- C1 witness: concrete two-item batches with reversed completion order
still report indexes [0, 1]. -/
theorem batch_results_in_input_order_witness :
    updatesTwo ≠ [] ∧ ([1, 0] : List Nat).Perm (List.range updatesTwo.length) ∧
    ((∃ resp, batch_update_issues uoOk updatesTwo "o" "r" 5 [1, 0] = .ok resp ∧
      resultIndexes resp = (List.range updatesTwo.length).map (fun i => some (.int i))) ∧
    (∃ resp, batch_add_labels loOk opsOne "o" "r" 5 [0] = .ok resp ∧
      resultIndexes resp = (List.range opsOne.length).map (fun i => some (.int i))) ∧
    (∃ resp, batch_link_to_project poOk numsTwo "PVT_abc" "o" "r" 5 [1, 0] = .ok resp ∧
      resultIndexes resp = (List.range numsTwo.length).map (fun i => some (.int i))) ∧
    (∃ resp, create_issues ccOk issuesTwo "o" "r" 5 [1, 0] = .ok resp ∧
      resultIndexes resp = (List.range issuesTwo.length).map (fun i => some (.int i)))) :=
  ⟨by simp [updatesTwo], by decide,
    batch_results_in_input_order uoOk loOk poOk ccOk updatesTwo opsOne issuesTwo
      numsTwo "PVT_abc" "o" "r" 5 [1, 0] [0] [1, 0] [1, 0]
      (by simp [updatesTwo]) (by decide) (by decide) (by decide)
      (by simp [opsOne]) (by decide) (by decide) (by decide)
      (by simp [numsTwo]) (by decide) (by decide) (by decide)
      (by simp [issuesTwo]) (by decide) (by decide)⟩

theorem countP_success_eq (op : Nat → BatchOperationResult) (n : Nat) :
    ((List.range n).map op).countP (fun r => r.success) =
      n - ((List.range n).map op).countP (fun r => !r.success) := by
  have h := countP_not_add (p := fun r => r.success) ((List.range n).map op)
  simp only [List.length_map, List.length_range] at h
  omega

theorem canonical_results_get (op : Nat → BatchOperationResult) (n i : Nat) (h : i < n) :
    (((List.range n).map op).map (fun x => PyVal.dict x.to_dict))[i]? =
      some (.dict (op i).to_dict) := by
  rw [List.getElem?_map, List.getElem?_map, List.getElem?_range h]
  rfl

/-- C2: for every valid batch call of which exactly k per-item operations
fail, the returned summary has successful = N - k, failed = k, total = N
(so successful + failed = total), success_rate is the one-decimal
percentage formatting of successful/total*100, and each item's serialized
result carries the "data" key iff it succeeded and the "error" key iff it
failed. -/
theorem batch_partial_failure_conservation
    (uo : UpdateOracle) (lo : LabelsOracle) (po : LinkOracle) (cc : CreateClient)
    (updates operations issues : List (List (String × PyVal)))
    (issue_numbers : List Int) (project_id owner repo : String) (mw : Int)
    (o1 o2 o3 o4 : List Nat)
    (hu1 : updates ≠ []) (hu2 : updates.length ≤ 50)
    (hu3 : ∀ u ∈ updates, (dictGet? u "issue_number").isSome)
    (ho1 : o1.Perm (List.range updates.length))
    (hl1 : operations ≠ []) (hl2 : operations.length ≤ 50)
    (hl3 : ∀ x ∈ operations, (dictGet? x "issue_number").isSome ∧
      (dictGet? x "labels").isSome ∧ pyTruthy (dictGet x "labels"))
    (ho2 : o2.Perm (List.range operations.length))
    (hp1 : issue_numbers ≠ []) (hp2 : issue_numbers.length ≤ 50)
    (hp3 : strStartsWith project_id "PVT_" = true)
    (ho3 : o3.Perm (List.range issue_numbers.length))
    (hc1 : issues ≠ []) (hc2 : issues.length ≤ 50)
    (ho4 : o4.Perm (List.range issues.length)) :
    (∃ resp, batch_update_issues uo updates owner repo mw o1 = .ok resp ∧
      (let n := updates.length
       let op := batchUpdateOp uo updates owner repo
       let k := ((List.range n).map op).countP (fun r => !r.success)
       dictGet? resp "total" = some (.int n) ∧
       dictGet? resp "successful" = some (.int ((n - k : Nat))) ∧
       dictGet? resp "failed" = some (.int k) ∧
       (n - k) + k = n ∧
       dictGet? resp "success_rate" =
         some (.str (formatPercent1 (n - k) n ++ "%")) ∧
       ∀ i, i < n → ∃ d, (responseResults resp)[i]? = some (.dict d) ∧
         (dictGet? d "data").isSome = (op i).success ∧
         (dictGet? d "error").isSome = !(op i).success)) ∧
    (∃ resp, batch_add_labels lo operations owner repo mw o2 = .ok resp ∧
      (let n := operations.length
       let op := batchLabelsOp lo operations owner repo
       let k := ((List.range n).map op).countP (fun r => !r.success)
       dictGet? resp "total" = some (.int n) ∧
       dictGet? resp "successful" = some (.int ((n - k : Nat))) ∧
       dictGet? resp "failed" = some (.int k) ∧
       (n - k) + k = n ∧
       dictGet? resp "success_rate" =
         some (.str (formatPercent1 (n - k) n ++ "%")) ∧
       ∀ i, i < n → ∃ d, (responseResults resp)[i]? = some (.dict d) ∧
         (dictGet? d "data").isSome = (op i).success ∧
         (dictGet? d "error").isSome = !(op i).success)) ∧
    (∃ resp, batch_link_to_project po issue_numbers project_id owner repo mw o3 =
        .ok resp ∧
      (let n := issue_numbers.length
       let op := batchLinkOp po issue_numbers project_id owner repo
       let k := ((List.range n).map op).countP (fun r => !r.success)
       dictGet? resp "total" = some (.int n) ∧
       dictGet? resp "successful" = some (.int ((n - k : Nat))) ∧
       dictGet? resp "failed" = some (.int k) ∧
       (n - k) + k = n ∧
       dictGet? resp "success_rate" =
         some (.str (formatPercent1 (n - k) n ++ "%")) ∧
       ∀ i, i < n → ∃ d, (responseResults resp)[i]? = some (.dict d) ∧
         (dictGet? d "data").isSome = (op i).success ∧
         (dictGet? d "error").isSome = !(op i).success)) ∧
    (∃ resp, create_issues cc issues owner repo mw o4 = .ok resp ∧
      (let n := issues.length
       let op := createIssuesOp cc issues owner repo
       let k := ((List.range n).map op).countP (fun r => !r.success)
       dictGet? resp "total" = some (.int n) ∧
       dictGet? resp "successful" = some (.int ((n - k : Nat))) ∧
       dictGet? resp "failed" = some (.int k) ∧
       (n - k) + k = n ∧
       dictGet? resp "success_rate" =
         some (.str (formatPercent1 (n - k) n ++ "%")) ∧
       ∀ i, i < n → ∃ d, (responseResults resp)[i]? = some (.dict d) ∧
         (dictGet? d "data").isSome = (op i).success ∧
         (dictGet? d "error").isSome = !(op i).success)) := by
  have hksub : ∀ (op : Nat → BatchOperationResult) (n : Nat),
      ((List.range n).map op).countP (fun r => !r.success) ≤ n := by
    intro op n
    calc ((List.range n).map op).countP (fun r => !r.success)
        ≤ ((List.range n).map op).length := List.countP_le_length _
      _ = n := by simp
  refine ⟨?_, ?_, ?_, ?_⟩
  · refine ⟨_, batch_update_issues_run uo updates owner repo mw o1 hu1 hu2 hu3 ho1,
      ?_, ?_, ?_, ?_, ?_, ?_⟩
    · exact response_total _
    · rw [response_successful, countP_success_eq]
    · exact response_failed _
    · have := hksub (batchUpdateOp uo updates owner repo) updates.length
      omega
    · rw [response_success_rate, countP_success_eq,
        if_pos (List.length_pos.mpr hu1)]
    · intro i hi
      refine ⟨(batchUpdateOp uo updates owner repo i).to_dict, ?_,
        to_dict_data_isSome _, to_dict_error_isSome _⟩
      rw [responseResults_to_dict]
      exact canonical_results_get _ _ _ hi
  · refine ⟨_, batch_add_labels_run lo operations owner repo mw o2 hl1 hl2 hl3 ho2,
      ?_, ?_, ?_, ?_, ?_, ?_⟩
    · exact response_total _
    · rw [response_successful, countP_success_eq]
    · exact response_failed _
    · have := hksub (batchLabelsOp lo operations owner repo) operations.length
      omega
    · rw [response_success_rate, countP_success_eq,
        if_pos (List.length_pos.mpr hl1)]
    · intro i hi
      refine ⟨(batchLabelsOp lo operations owner repo i).to_dict, ?_,
        to_dict_data_isSome _, to_dict_error_isSome _⟩
      rw [responseResults_to_dict]
      exact canonical_results_get _ _ _ hi
  · refine ⟨_, batch_link_to_project_run po issue_numbers project_id owner repo mw o3
      hp1 hp2 hp3 ho3, ?_, ?_, ?_, ?_, ?_, ?_⟩
    · exact response_total _
    · rw [response_successful, countP_success_eq]
    · exact response_failed _
    · have := hksub (batchLinkOp po issue_numbers project_id owner repo)
        issue_numbers.length
      omega
    · rw [response_success_rate, countP_success_eq,
        if_pos (List.length_pos.mpr hp1)]
    · intro i hi
      refine ⟨(batchLinkOp po issue_numbers project_id owner repo i).to_dict, ?_,
        to_dict_data_isSome _, to_dict_error_isSome _⟩
      rw [responseResults_to_dict]
      exact canonical_results_get _ _ _ hi
  · have hfail : issues.length -
        ((List.range issues.length).map (createIssuesOp cc issues owner repo)).countP
          (fun r => r.success) =
        ((List.range issues.length).map (createIssuesOp cc issues owner repo)).countP
          (fun r => !r.success) := by
      have h := countP_not_add (p := fun r => r.success)
        ((List.range issues.length).map (createIssuesOp cc issues owner repo))
      simp only [List.length_map, List.length_range] at h
      omega
    refine ⟨_, create_issues_run cc issues owner repo mw o4 hc1 hc2 ho4,
      ?_, ?_, ?_, ?_, ?_, ?_⟩
    · rfl
    · rw [create_response_successful, countP_success_eq]
    · rw [create_response_failed, hfail]
    · have := hksub (createIssuesOp cc issues owner repo) issues.length
      omega
    · rw [create_response_success_rate, countP_success_eq]
    · intro i hi
      refine ⟨(createIssuesOp cc issues owner repo i).to_dict, ?_,
        to_dict_data_isSome _, to_dict_error_isSome _⟩
      rw [responseResults_create]
      exact canonical_results_get _ _ _ hi

/-- Fixture: an update oracle that fails with a 404 exactly on issue
number 2. -/
def uoFail2 : UpdateOracle := fun _ _ num _ =>
  match num with
  | .int 2 => .error notFoundError
  | _ => .ok { number := 1, html_url := "u" }

/-- C2 witness: a concrete two-item update batch in which exactly the
second item fails conserves the success/failure counts. -/
theorem batch_partial_failure_conservation_witness :
    updatesTwo ≠ [] ∧
    (∃ resp, batch_update_issues uoFail2 updatesTwo "o" "r" 5 [1, 0] = .ok resp ∧
      (let n := updatesTwo.length
       let op := batchUpdateOp uoFail2 updatesTwo "o" "r"
       let k := ((List.range n).map op).countP (fun r => !r.success)
       dictGet? resp "total" = some (.int n) ∧
       dictGet? resp "successful" = some (.int ((n - k : Nat))) ∧
       dictGet? resp "failed" = some (.int k) ∧
       (n - k) + k = n ∧
       dictGet? resp "success_rate" =
         some (.str (formatPercent1 (n - k) n ++ "%")) ∧
       ∀ i, i < n → ∃ d, (responseResults resp)[i]? = some (.dict d) ∧
         (dictGet? d "data").isSome = (op i).success ∧
         (dictGet? d "error").isSome = !(op i).success)) :=
  ⟨by simp [updatesTwo],
    (batch_partial_failure_conservation uoFail2 loOk poOk ccOk updatesTwo opsOne
      issuesTwo numsTwo "PVT_abc" "o" "r" 5 [1, 0] [0] [1, 0] [1, 0]
      (by simp [updatesTwo]) (by decide) (by decide) (by decide)
      (by simp [opsOne]) (by decide) (by decide) (by decide)
      (by simp [numsTwo]) (by decide) (by decide) (by decide)
      (by simp [issuesTwo]) (by decide) (by decide)).1⟩

/-- C3: every batch tool clamps the worker count to min(max(1, w), 10),
a value always in [1, 10]; a call with worker_count 0 returns the same
response as with 1, and 1000 the same as 10, for any completion orders. -/
theorem worker_count_clamped
    (uo : UpdateOracle) (lo : LabelsOracle) (po : LinkOracle) (cc : CreateClient)
    (updates operations issues : List (List (String × PyVal)))
    (issue_numbers : List Int) (project_id owner repo : String)
    (o1 o1' o2 o2' o3 o3' o4 o4' : List Nat)
    (hu1 : updates ≠ []) (hu2 : updates.length ≤ 50)
    (hu3 : ∀ u ∈ updates, (dictGet? u "issue_number").isSome)
    (ho1 : o1.Perm (List.range updates.length))
    (ho1' : o1'.Perm (List.range updates.length))
    (hl1 : operations ≠ []) (hl2 : operations.length ≤ 50)
    (hl3 : ∀ x ∈ operations, (dictGet? x "issue_number").isSome ∧
      (dictGet? x "labels").isSome ∧ pyTruthy (dictGet x "labels"))
    (ho2 : o2.Perm (List.range operations.length))
    (ho2' : o2'.Perm (List.range operations.length))
    (hp1 : issue_numbers ≠ []) (hp2 : issue_numbers.length ≤ 50)
    (hp3 : strStartsWith project_id "PVT_" = true)
    (ho3 : o3.Perm (List.range issue_numbers.length))
    (ho3' : o3'.Perm (List.range issue_numbers.length))
    (hc1 : issues ≠ []) (hc2 : issues.length ≤ 50)
    (ho4 : o4.Perm (List.range issues.length))
    (ho4' : o4'.Perm (List.range issues.length)) :
    (∀ w : Int, clampWorkers w = min (max 1 w) 10 ∧
      1 ≤ clampWorkers w ∧ clampWorkers w ≤ 10) ∧
    clampWorkers 0 = clampWorkers 1 ∧ clampWorkers 1000 = clampWorkers 10 ∧
    batch_update_issues uo updates owner repo 0 o1 =
      batch_update_issues uo updates owner repo 1 o1' ∧
    batch_update_issues uo updates owner repo 1000 o1 =
      batch_update_issues uo updates owner repo 10 o1' ∧
    batch_add_labels lo operations owner repo 0 o2 =
      batch_add_labels lo operations owner repo 1 o2' ∧
    batch_add_labels lo operations owner repo 1000 o2 =
      batch_add_labels lo operations owner repo 10 o2' ∧
    batch_link_to_project po issue_numbers project_id owner repo 0 o3 =
      batch_link_to_project po issue_numbers project_id owner repo 1 o3' ∧
    batch_link_to_project po issue_numbers project_id owner repo 1000 o3 =
      batch_link_to_project po issue_numbers project_id owner repo 10 o3' ∧
    create_issues cc issues owner repo 0 o4 = create_issues cc issues owner repo 1 o4' ∧
    create_issues cc issues owner repo 1000 o4 =
      create_issues cc issues owner repo 10 o4' := by
  refine ⟨?_, by decide, by decide, ?_, ?_, ?_, ?_, ?_, ?_, ?_, ?_⟩
  · intro w
    refine ⟨rfl, ?_, ?_⟩ <;>
      simp only [clampWorkers, min_def, max_def] <;> split <;> try split
    all_goals omega
  · rw [batch_update_issues_run uo updates owner repo 0 o1 hu1 hu2 hu3 ho1,
      batch_update_issues_run uo updates owner repo 1 o1' hu1 hu2 hu3 ho1']
  · rw [batch_update_issues_run uo updates owner repo 1000 o1 hu1 hu2 hu3 ho1,
      batch_update_issues_run uo updates owner repo 10 o1' hu1 hu2 hu3 ho1']
  · rw [batch_add_labels_run lo operations owner repo 0 o2 hl1 hl2 hl3 ho2,
      batch_add_labels_run lo operations owner repo 1 o2' hl1 hl2 hl3 ho2']
  · rw [batch_add_labels_run lo operations owner repo 1000 o2 hl1 hl2 hl3 ho2,
      batch_add_labels_run lo operations owner repo 10 o2' hl1 hl2 hl3 ho2']
  · rw [batch_link_to_project_run po issue_numbers project_id owner repo 0 o3
      hp1 hp2 hp3 ho3,
      batch_link_to_project_run po issue_numbers project_id owner repo 1 o3'
      hp1 hp2 hp3 ho3']
  · rw [batch_link_to_project_run po issue_numbers project_id owner repo 1000 o3
      hp1 hp2 hp3 ho3,
      batch_link_to_project_run po issue_numbers project_id owner repo 10 o3'
      hp1 hp2 hp3 ho3']
  · rw [create_issues_run cc issues owner repo 0 o4 hc1 hc2 ho4,
      create_issues_run cc issues owner repo 1 o4' hc1 hc2 ho4']
  · rw [create_issues_run cc issues owner repo 1000 o4 hc1 hc2 ho4,
      create_issues_run cc issues owner repo 10 o4' hc1 hc2 ho4']

/-- C3 witness: clamp endpoints at concrete values and a concrete batch
whose response is identical for worker_count 0 and 1. -/
theorem worker_count_clamped_witness :
    updatesTwo ≠ [] ∧
    clampWorkers 0 = clampWorkers 1 ∧ clampWorkers 1000 = clampWorkers 10 ∧
    batch_update_issues uoOk updatesTwo "o" "r" 0 [1, 0] =
      batch_update_issues uoOk updatesTwo "o" "r" 1 [0, 1] :=
  ⟨by simp [updatesTwo],
    (worker_count_clamped uoOk loOk poOk ccOk updatesTwo opsOne issuesTwo numsTwo
      "PVT_abc" "o" "r" [1, 0] [0, 1] [0] [0] [1, 0] [0, 1] [1, 0] [0, 1]
      (by simp [updatesTwo]) (by decide) (by decide) (by decide) (by decide)
      (by simp [opsOne]) (by decide) (by decide) (by decide) (by decide)
      (by simp [numsTwo]) (by decide) (by decide) (by decide) (by decide)
      (by simp [issuesTwo]) (by decide) (by decide) (by decide)).2.1,
    (worker_count_clamped uoOk loOk poOk ccOk updatesTwo opsOne issuesTwo numsTwo
      "PVT_abc" "o" "r" [1, 0] [0, 1] [0] [0] [1, 0] [0, 1] [1, 0] [0, 1]
      (by simp [updatesTwo]) (by decide) (by decide) (by decide) (by decide)
      (by simp [opsOne]) (by decide) (by decide) (by decide) (by decide)
      (by simp [numsTwo]) (by decide) (by decide) (by decide) (by decide)
      (by simp [issuesTwo]) (by decide) (by decide) (by decide)).2.2.1,
    (worker_count_clamped uoOk loOk poOk ccOk updatesTwo opsOne issuesTwo numsTwo
      "PVT_abc" "o" "r" [1, 0] [0, 1] [0] [0] [1, 0] [0, 1] [1, 0] [0, 1]
      (by simp [updatesTwo]) (by decide) (by decide) (by decide) (by decide)
      (by simp [opsOne]) (by decide) (by decide) (by decide) (by decide)
      (by simp [numsTwo]) (by decide) (by decide) (by decide) (by decide)
      (by simp [issuesTwo]) (by decide) (by decide) (by decide)).2.2.2.1⟩

/-! ### Pre-flight validation helper lemmas -/

theorem batch_update_issues_missing_field (o : UpdateOracle)
    (updates : List (List (String × PyVal))) (owner repo : String) (mw : Int)
    (order : List Nat) (i : Nat) (u : List (String × PyVal))
    (hlen : updates.length ≤ 50)
    (hpre : ∀ j x, j < i → updates.get? j = some x →
      (dictGet? x "issue_number").isSome)
    (hu : updates.get? i = some u)
    (hmiss : dictGet? u "issue_number" = Option.none) :
    batch_update_issues o updates owner repo mw order =
      .error s!"Update at index {i} missing required \x27issue_number\x27 field" := by
  have hne : updates ≠ [] := by
    intro he
    rw [he] at hu
    simp at hu
  unfold batch_update_issues
  rw [if_neg (by simpa using hne), if_neg (by omega)]
  rw [firstItemError_first updates 0 i u ?_ hu ?_]
  · intro j x _ hx
    have hs := hpre j x (by omega) hx
    cases hdg : dictGet? x "issue_number" with
    | none => rw [hdg] at hs; simp at hs
    | some v => simp [hdg]
  · simp [hmiss]

theorem batch_add_labels_missing_number (o : LabelsOracle)
    (operations : List (List (String × PyVal))) (owner repo : String) (mw : Int)
    (order : List Nat) (i : Nat) (u : List (String × PyVal))
    (hlen : operations.length ≤ 50)
    (hpre : ∀ j x, j < i → operations.get? j = some x →
      (dictGet? x "issue_number").isSome ∧ (dictGet? x "labels").isSome ∧
        pyTruthy (dictGet x "labels"))
    (hu : operations.get? i = some u)
    (hmiss : dictGet? u "issue_number" = Option.none) :
    batch_add_labels o operations owner repo mw order =
      .error s!"Operation at index {i} missing required \x27issue_number\x27 field" := by
  have hne : operations ≠ [] := by
    intro he
    rw [he] at hu
    simp at hu
  unfold batch_add_labels
  rw [if_neg (by simpa using hne), if_neg (by omega)]
  rw [firstItemError_first operations 0 i u ?_ hu ?_]
  · intro j x _ hx
    obtain ⟨ha, hb, hc⟩ := hpre j x (by omega) hx
    cases hdg : dictGet? x "issue_number" with
    | none => rw [hdg] at ha; simp at ha
    | some v =>
      cases hdl : dictGet? x "labels" with
      | none => rw [hdl] at hb; simp at hb
      | some w => simp [hdg, hdl, hc]
  · simp [hmiss]

theorem batch_add_labels_missing_labels (o : LabelsOracle)
    (operations : List (List (String × PyVal))) (owner repo : String) (mw : Int)
    (order : List Nat) (i : Nat) (u : List (String × PyVal))
    (hlen : operations.length ≤ 50)
    (hpre : ∀ j x, j < i → operations.get? j = some x →
      (dictGet? x "issue_number").isSome ∧ (dictGet? x "labels").isSome ∧
        pyTruthy (dictGet x "labels"))
    (hu : operations.get? i = some u)
    (hnum : (dictGet? u "issue_number").isSome)
    (hmiss : dictGet? u "labels" = Option.none) :
    batch_add_labels o operations owner repo mw order =
      .error s!"Operation at index {i} missing required \x27labels\x27 field" := by
  have hne : operations ≠ [] := by
    intro he
    rw [he] at hu
    simp at hu
  unfold batch_add_labels
  rw [if_neg (by simpa using hne), if_neg (by omega)]
  rw [firstItemError_first operations 0 i u ?_ hu ?_]
  · intro j x _ hx
    obtain ⟨ha, hb, hc⟩ := hpre j x (by omega) hx
    cases hdg : dictGet? x "issue_number" with
    | none => rw [hdg] at ha; simp at ha
    | some v =>
      cases hdl : dictGet? x "labels" with
      | none => rw [hdl] at hb; simp at hb
      | some w => simp [hdg, hdl, hc]
  · cases hdg : dictGet? u "issue_number" with
    | none => rw [hdg] at hnum; simp at hnum
    | some v => simp [hdg, hmiss]

theorem batch_add_labels_empty_labels (o : LabelsOracle)
    (operations : List (List (String × PyVal))) (owner repo : String) (mw : Int)
    (order : List Nat) (i : Nat) (u : List (String × PyVal))
    (hlen : operations.length ≤ 50)
    (hpre : ∀ j x, j < i → operations.get? j = some x →
      (dictGet? x "issue_number").isSome ∧ (dictGet? x "labels").isSome ∧
        pyTruthy (dictGet x "labels"))
    (hu : operations.get? i = some u)
    (hnum : (dictGet? u "issue_number").isSome)
    (hlab : (dictGet? u "labels").isSome)
    (hfalsy : pyTruthy (dictGet u "labels") = false) :
    batch_add_labels o operations owner repo mw order =
      .error s!"Operation at index {i} has empty \x27labels\x27 list" := by
  have hne : operations ≠ [] := by
    intro he
    rw [he] at hu
    simp at hu
  unfold batch_add_labels
  rw [if_neg (by simpa using hne), if_neg (by omega)]
  rw [firstItemError_first operations 0 i u ?_ hu ?_]
  · intro j x _ hx
    obtain ⟨ha, hb, hc⟩ := hpre j x (by omega) hx
    cases hdg : dictGet? x "issue_number" with
    | none => rw [hdg] at ha; simp at ha
    | some v =>
      cases hdl : dictGet? x "labels" with
      | none => rw [hdl] at hb; simp at hb
      | some w => simp [hdg, hdl, hc]
  · cases hdg : dictGet? u "issue_number" with
    | none => rw [hdg] at hnum; simp at hnum
    | some v =>
      cases hdl : dictGet? u "labels" with
      | none => rw [hdl] at hlab; simp at hlab
      | some w => simp [hdg, hdl, hfalsy]

theorem batch_link_bad_project (o : LinkOracle) (issue_numbers : List Int)
    (project_id owner repo : String) (mw : Int) (order : List Nat)
    (h1 : issue_numbers ≠ []) (h2 : issue_numbers.length ≤ 50)
    (h3 : strStartsWith project_id "PVT_" = false) :
    batch_link_to_project o issue_numbers project_id owner repo mw order =
      .error "project_id must be a valid GitHub Project node ID (starts with \x27PVT_\x27)" := by
  unfold batch_link_to_project
  rw [if_neg (by simpa using h1), if_neg (by omega), if_pos (by simp [h3])]

/-- C4: every shape violation — empty item list, more than 50 items, a
missing required identifier, an empty labels list, or a project id
without the PVT_ prefix — makes the batch tool raise a ValueError whose
result does not depend on the remote client (zero remote calls), and a
missing-field rejection message names the missing field and the item's
index. -/
theorem preflight_validation_fast_fail
    (uo uo' : UpdateOracle) (lo : LabelsOracle) (po : LinkOracle) (cc : CreateClient)
    (updates operations issues : List (List (String × PyVal)))
    (issue_numbers : List Int) (project_id owner repo : String) (mw : Int)
    (order : List Nat) (i : Nat) (u : List (String × PyVal)) :
    (batch_update_issues uo [] owner repo mw order =
      .error "updates list cannot be empty") ∧
    (batch_add_labels lo [] owner repo mw order =
      .error "operations list cannot be empty") ∧
    (batch_link_to_project po [] project_id owner repo mw order =
      .error "issue_numbers list cannot be empty") ∧
    (create_issues cc [] owner repo mw order = .error "issues list cannot be empty") ∧
    (50 < updates.length → batch_update_issues uo updates owner repo mw order =
      .error "Maximum 50 updates per batch (rate limiting protection)") ∧
    (50 < operations.length → batch_add_labels lo operations owner repo mw order =
      .error "Maximum 50 operations per batch (rate limiting protection)") ∧
    (50 < issue_numbers.length →
      batch_link_to_project po issue_numbers project_id owner repo mw order =
        .error "Maximum 50 issues per batch (rate limiting protection)") ∧
    (50 < issues.length → create_issues cc issues owner repo mw order =
      .error "Maximum 50 issues per batch") ∧
    (updates.length ≤ 50 →
      (∀ j x, j < i → updates.get? j = some x →
        (dictGet? x "issue_number").isSome) →
      updates.get? i = some u → dictGet? u "issue_number" = Option.none →
      batch_update_issues uo updates owner repo mw order =
        .error s!"Update at index {i} missing required \x27issue_number\x27 field") ∧
    (operations.length ≤ 50 →
      (∀ j x, j < i → operations.get? j = some x →
        (dictGet? x "issue_number").isSome ∧ (dictGet? x "labels").isSome ∧
          pyTruthy (dictGet x "labels")) →
      operations.get? i = some u → dictGet? u "issue_number" = Option.none →
      batch_add_labels lo operations owner repo mw order =
        .error s!"Operation at index {i} missing required \x27issue_number\x27 field") ∧
    (operations.length ≤ 50 →
      (∀ j x, j < i → operations.get? j = some x →
        (dictGet? x "issue_number").isSome ∧ (dictGet? x "labels").isSome ∧
          pyTruthy (dictGet x "labels")) →
      operations.get? i = some u → (dictGet? u "issue_number").isSome →
      dictGet? u "labels" = Option.none →
      batch_add_labels lo operations owner repo mw order =
        .error s!"Operation at index {i} missing required \x27labels\x27 field") ∧
    (operations.length ≤ 50 →
      (∀ j x, j < i → operations.get? j = some x →
        (dictGet? x "issue_number").isSome ∧ (dictGet? x "labels").isSome ∧
          pyTruthy (dictGet x "labels")) →
      operations.get? i = some u → (dictGet? u "issue_number").isSome →
      (dictGet? u "labels").isSome → pyTruthy (dictGet u "labels") = false →
      batch_add_labels lo operations owner repo mw order =
        .error s!"Operation at index {i} has empty \x27labels\x27 list") ∧
    (issue_numbers ≠ [] → issue_numbers.length ≤ 50 →
      strStartsWith project_id "PVT_" = false →
      batch_link_to_project po issue_numbers project_id owner repo mw order =
        .error "project_id must be a valid GitHub Project node ID (starts with \x27PVT_\x27)") ∧
    (batch_update_issues uo [] owner repo mw order =
      batch_update_issues uo' [] owner repo mw order) ∧
    (updates.length ≤ 50 →
      (∀ j x, j < i → updates.get? j = some x →
        (dictGet? x "issue_number").isSome) →
      updates.get? i = some u → dictGet? u "issue_number" = Option.none →
      batch_update_issues uo updates owner repo mw order =
        batch_update_issues uo' updates owner repo mw order) := by
  refine ⟨rfl, rfl, rfl, rfl, ?_, ?_, ?_, ?_, ?_, ?_, ?_, ?_, ?_, rfl, ?_⟩
  · intro h
    have hne : updates ≠ [] := by
      intro he
      rw [he] at h
      simp at h
    unfold batch_update_issues
    rw [if_neg (by simpa using hne), if_pos h]
  · intro h
    have hne : operations ≠ [] := by
      intro he
      rw [he] at h
      simp at h
    unfold batch_add_labels
    rw [if_neg (by simpa using hne), if_pos h]
  · intro h
    have hne : issue_numbers ≠ [] := by
      intro he
      rw [he] at h
      simp at h
    unfold batch_link_to_project
    rw [if_neg (by simpa using hne), if_pos h]
  · intro h
    have hne : issues ≠ [] := by
      intro he
      rw [he] at h
      simp at h
    unfold create_issues
    rw [if_neg (by simpa using hne), if_pos h]
  · exact batch_update_issues_missing_field uo updates owner repo mw order i u
  · exact batch_add_labels_missing_number lo operations owner repo mw order i u
  · exact batch_add_labels_missing_labels lo operations owner repo mw order i u
  · exact batch_add_labels_empty_labels lo operations owner repo mw order i u
  · exact batch_link_bad_project po issue_numbers project_id owner repo mw order
  · intro h1 h2 h3 h4
    rw [batch_update_issues_missing_field uo updates owner repo mw order i u h1 h2 h3 h4,
      batch_update_issues_missing_field uo' updates owner repo mw order i u h1 h2 h3 h4]

/-- Fixture: an update item lacking the required issue_number field. -/
def updatesBad : List (List (String × PyVal)) := [[("title", PyVal.str "x")]]

/-- C4 witness: concrete shape violations fail fast with the documented
messages, independent of the remote oracle. -/
theorem preflight_validation_fast_fail_witness :
    updatesBad.get? 0 = some [("title", PyVal.str "x")] ∧
    (batch_update_issues uoOk [] "o" "r" 5 [] =
      .error "updates list cannot be empty") ∧
    (batch_update_issues uoOk updatesBad "o" "r" 5 [0] =
      .error "Update at index 0 missing required \x27issue_number\x27 field") ∧
    (batch_update_issues uoOk updatesBad "o" "r" 5 [0] =
      batch_update_issues uoFail2 updatesBad "o" "r" 5 [0]) :=
  ⟨rfl,
    (preflight_validation_fast_fail uoOk uoFail2 loOk poOk ccOk updatesBad opsOne
      issuesTwo numsTwo "PVT_abc" "o" "r" 5 [0] 0 [("title", PyVal.str "x")]).1,
    (preflight_validation_fast_fail uoOk uoFail2 loOk poOk ccOk updatesBad opsOne
      issuesTwo numsTwo "PVT_abc" "o" "r" 5 [0] 0
      [("title", PyVal.str "x")]).2.2.2.2.2.2.2.2.1
      (by decide) (by intro j x hj _; omega) rfl rfl,
    (preflight_validation_fast_fail uoOk uoFail2 loOk poOk ccOk updatesBad opsOne
      issuesTwo numsTwo "PVT_abc" "o" "r" 5 [0] 0
      [("title", PyVal.str "x")]).2.2.2.2.2.2.2.2.2.2.2.2.2.2
      (by decide) (by intro j x hj _; omega) rfl rfl⟩

/-- C6: when pre-flight validation passes, a batch call never raises from
a per-item remote failure: an exception raised by item i's remote work is
caught in the per-item function, normalized, and surfaces only as
results[i] with success = false and the normalized error, while the batch
still returns a complete summary with one result per item. -/
theorem per_item_failures_contained
    (uo : UpdateOracle) (lo : LabelsOracle) (po : LinkOracle) (cc : CreateClient)
    (updates operations issues : List (List (String × PyVal)))
    (issue_numbers : List Int) (project_id owner repo : String) (mw : Int)
    (o1 o2 o3 o4 : List Nat) (i : Nat) (u : List (String × PyVal)) (num : Int)
    (ex : GhException)
    (hu1 : updates ≠ []) (hu2 : updates.length ≤ 50)
    (hu3 : ∀ x ∈ updates, (dictGet? x "issue_number").isSome)
    (ho1 : o1.Perm (List.range updates.length))
    (hl1 : operations ≠ []) (hl2 : operations.length ≤ 50)
    (hl3 : ∀ x ∈ operations, (dictGet? x "issue_number").isSome ∧
      (dictGet? x "labels").isSome ∧ pyTruthy (dictGet x "labels"))
    (ho2 : o2.Perm (List.range operations.length))
    (hp1 : issue_numbers ≠ []) (hp2 : issue_numbers.length ≤ 50)
    (hp3 : strStartsWith project_id "PVT_" = true)
    (ho3 : o3.Perm (List.range issue_numbers.length))
    (hc1 : issues ≠ []) (hc2 : issues.length ≤ 50)
    (ho4 : o4.Perm (List.range issues.length)) :
    (updates.get? i = some u →
      uo owner repo (dictGet u "issue_number")
        (List.filter (fun kv => kv.1 != "issue_number") u) = .error ex →
      ∃ resp, batch_update_issues uo updates owner repo mw o1 = .ok resp ∧
        (responseResults resp).length = updates.length ∧
        (responseResults resp)[i]? = some (.dict (BatchOperationResult.to_dict
          ⟨i, false, Option.none, some (.dict (handle_github_error ex).to_dict)⟩))) ∧
    (operations.get? i = some u →
      lo owner repo (dictGet u "issue_number") (dictGet u "labels") = .error ex →
      ∃ resp, batch_add_labels lo operations owner repo mw o2 = .ok resp ∧
        (responseResults resp).length = operations.length ∧
        (responseResults resp)[i]? = some (.dict (BatchOperationResult.to_dict
          ⟨i, false, Option.none, some (.dict (handle_github_error ex).to_dict)⟩))) ∧
    (issue_numbers.get? i = some num →
      po owner repo num project_id = .error ex →
      ∃ resp, batch_link_to_project po issue_numbers project_id owner repo mw o3 =
          .ok resp ∧
        (responseResults resp).length = issue_numbers.length ∧
        (responseResults resp)[i]? = some (.dict (BatchOperationResult.to_dict
          ⟨i, false, Option.none, some (.dict (handle_github_error ex).to_dict)⟩))) ∧
    (issues.get? i = some u →
      cc.get_repo (owner ++ "/" ++ repo) = .ok () →
      pyTruthy (dictGet u "title") = true →
      cc.create_issue owner repo u = .error ex →
      ∃ resp, create_issues cc issues owner repo mw o4 = .ok resp ∧
        (responseResults resp).length = issues.length ∧
        (responseResults resp)[i]? = some (.dict (BatchOperationResult.to_dict
          ⟨i, false, Option.none, some (.dict (handle_github_error ex).to_dict)⟩))) := by
  refine ⟨?_, ?_, ?_, ?_⟩
  · intro hget hex
    have hi : i < updates.length := by
      by_contra hlt
      rw [List.get?_eq_none.mpr (by omega)] at hget
      simp at hget
    refine ⟨_, batch_update_issues_run uo updates owner repo mw o1 hu1 hu2 hu3 ho1,
      ?_, ?_⟩
    · rw [responseResults_to_dict]
      simp
    · rw [responseResults_to_dict, canonical_results_get _ _ _ hi]
      rw [List.get?_eq_getElem?] at hget
      have hop : batchUpdateOp uo updates owner repo i =
          ⟨i, false, Option.none, some (.dict (handle_github_error ex).to_dict)⟩ := by
        simp [batchUpdateOp, _update_single_issue, hget, hex]
      rw [hop]
  · intro hget hex
    have hi : i < operations.length := by
      by_contra hlt
      rw [List.get?_eq_none.mpr (by omega)] at hget
      simp at hget
    refine ⟨_, batch_add_labels_run lo operations owner repo mw o2 hl1 hl2 hl3 ho2,
      ?_, ?_⟩
    · rw [responseResults_to_dict]
      simp
    · rw [responseResults_to_dict, canonical_results_get _ _ _ hi]
      rw [List.get?_eq_getElem?] at hget
      have hop : batchLabelsOp lo operations owner repo i =
          ⟨i, false, Option.none, some (.dict (handle_github_error ex).to_dict)⟩ := by
        simp [batchLabelsOp, _add_labels_to_issue, hget, hex]
      rw [hop]
  · intro hget hex
    have hi : i < issue_numbers.length := by
      by_contra hlt
      rw [List.get?_eq_none.mpr (by omega)] at hget
      simp at hget
    refine ⟨_, batch_link_to_project_run po issue_numbers project_id owner repo mw o3
      hp1 hp2 hp3 ho3, ?_, ?_⟩
    · rw [responseResults_to_dict]
      simp
    · rw [responseResults_to_dict, canonical_results_get _ _ _ hi]
      rw [List.get?_eq_getElem?] at hget
      have hop : batchLinkOp po issue_numbers project_id owner repo i =
          ⟨i, false, Option.none, some (.dict (handle_github_error ex).to_dict)⟩ := by
        simp [batchLinkOp, _link_issue_to_project, hget, hex]
      rw [hop]
  · intro hget hrepo htitle hex
    have hi : i < issues.length := by
      by_contra hlt
      rw [List.get?_eq_none.mpr (by omega)] at hget
      simp at hget
    refine ⟨_, create_issues_run cc issues owner repo mw o4 hc1 hc2 ho4, ?_, ?_⟩
    · rw [responseResults_create]
      simp
    · rw [responseResults_create, canonical_results_get _ _ _ hi]
      rw [List.get?_eq_getElem?] at hget
      have hop : createIssuesOp cc issues owner repo i =
          ⟨i, false, Option.none, some (.dict (handle_github_error ex).to_dict)⟩ := by
        simp [createIssuesOp, _create_single_issue, hget, hrepo, htitle, hex]
      rw [hop]

/-- C6 witness: a concrete two-item update batch whose second item's
remote call raises a 404 still returns a full summary, with the
normalized error in results[1]. -/
theorem per_item_failures_contained_witness :
    updatesTwo.get? 1 = some [("issue_number", PyVal.int 2)] ∧
    uoFail2 "o" "r" (dictGet [("issue_number", PyVal.int 2)] "issue_number")
      (List.filter (fun kv => kv.1 != "issue_number")
        [("issue_number", PyVal.int 2)]) = .error notFoundError ∧
    (∃ resp, batch_update_issues uoFail2 updatesTwo "o" "r" 5 [1, 0] = .ok resp ∧
      (responseResults resp).length = updatesTwo.length ∧
      (responseResults resp)[1]? = some (.dict (BatchOperationResult.to_dict
        ⟨1, false, Option.none,
          some (.dict (handle_github_error notFoundError).to_dict)⟩))) :=
  ⟨rfl, rfl,
    (per_item_failures_contained uoFail2 loOk poOk ccOk updatesTwo opsOne issuesTwo
      numsTwo "PVT_abc" "o" "r" 5 [1, 0] [0] [1, 0] [1, 0] 1
      [("issue_number", PyVal.int 2)] 5 notFoundError
      (by simp [updatesTwo]) (by decide) (by decide) (by decide)
      (by simp [opsOne]) (by decide) (by decide) (by decide)
      (by simp [numsTwo]) (by decide) (by decide) (by decide)
      (by simp [issuesTwo]) (by decide) (by decide)).1 rfl rfl⟩

/-- C10: a create_issues item with a missing or empty title is not
rejected pre-flight: the call proceeds, every item still yields a result,
and that item's result is a failure whose error code is GITHUB_API_ERROR
(the internally raised ValueError "title is required" falls through the
normalizer's status-code checks to the generic branch). -/
theorem create_issues_missing_title
    (cc : CreateClient) (issues : List (List (String × PyVal))) (owner repo : String)
    (mw : Int) (o4 : List Nat) (j : Nat) (item : List (String × PyVal))
    (hc1 : issues ≠ []) (hc2 : issues.length ≤ 50)
    (ho4 : o4.Perm (List.range issues.length))
    (hj : issues.get? j = some item)
    (htitle : pyTruthy (dictGet item "title") = false)
    (hrepo : cc.get_repo (owner ++ "/" ++ repo) = .ok ()) :
    ∃ resp, create_issues cc issues owner repo mw o4 = .ok resp ∧
      (responseResults resp).length = issues.length ∧
      (responseResults resp)[j]? = some (.dict (BatchOperationResult.to_dict
        ⟨j, false, Option.none,
          some (.dict (handle_github_error titleRequiredError).to_dict)⟩)) ∧
      (handle_github_error titleRequiredError).code = "GITHUB_API_ERROR" ∧
      (handle_github_error titleRequiredError).message = "title is required" ∧
      ∀ i, i < issues.length → (responseResults resp)[i]? =
        some (.dict ((createIssuesOp cc issues owner repo i).to_dict)) := by
  have hjlt : j < issues.length := by
    by_contra hlt
    rw [List.get?_eq_none.mpr (by omega)] at hj
    simp at hj
  refine ⟨_, create_issues_run cc issues owner repo mw o4 hc1 hc2 ho4, ?_, ?_, rfl, rfl,
    ?_⟩
  · rw [responseResults_create]
    simp
  · rw [responseResults_create, canonical_results_get _ _ _ hjlt]
    rw [List.get?_eq_getElem?] at hj
    have hop : createIssuesOp cc issues owner repo j =
        ⟨j, false, Option.none,
          some (.dict (handle_github_error titleRequiredError).to_dict)⟩ := by
      simp [createIssuesOp, _create_single_issue, hj, hrepo, htitle]
    rw [hop]
  · intro i hi
    rw [responseResults_create]
    exact canonical_results_get _ _ _ hi

/-- Fixture: a create_issues batch whose first item has an empty title. -/
def issuesBadTitle : List (List (String × PyVal)) :=
  [[("title", PyVal.str "")], [("title", PyVal.str "b")]]

/-- C10 witness: the concrete empty-title batch returns a full summary
with a GITHUB_API_ERROR failure at index 0. -/
theorem create_issues_missing_title_witness :
    issuesBadTitle.get? 0 = some [("title", PyVal.str "")] ∧
    pyTruthy (dictGet [("title", PyVal.str "")] "title") = false ∧
    (∃ resp, create_issues ccOk issuesBadTitle "o" "r" 5 [1, 0] = .ok resp ∧
      (responseResults resp).length = issuesBadTitle.length ∧
      (responseResults resp)[0]? = some (.dict (BatchOperationResult.to_dict
        ⟨0, false, Option.none,
          some (.dict (handle_github_error titleRequiredError).to_dict)⟩)) ∧
      (handle_github_error titleRequiredError).code = "GITHUB_API_ERROR" ∧
      (handle_github_error titleRequiredError).message = "title is required" ∧
      ∀ i, i < issuesBadTitle.length → (responseResults resp)[i]? =
        some (.dict ((createIssuesOp ccOk issuesBadTitle "o" "r" i).to_dict))) :=
  ⟨rfl, rfl,
    create_issues_missing_title ccOk issuesBadTitle "o" "r" 5 [1, 0] 0
      [("title", PyVal.str "")] (by simp [issuesBadTitle]) (by decide) (by decide)
      rfl rfl rfl⟩

end GithubMcp
